import Mathlib

/-!
Verification development for the obidome taskbar system monitor.

The development shallowly embeds the observable behaviour of the three core
modules of the repository:

* monitor.py  : taskbar geometry probing, fullscreen detection and the
  snap_position placement computation (Windows API results are passed in as
  explicit parameters);
* plot.py     : the SparklineGenerator ring buffer and its auto-scaling
  min/max state (the PNG rasterisation is abstracted: we model the state
  transition performed by update_and_get_b64 on the history and the
  normalisation bounds, which determine the rendered image);
* values.py   : the LazySystemValueFetcher dictionary facade, modelled as an
  explicit state machine over a cache record, rate baselines, plotter states
  and a warning log, with the external world (psutil query results, the
  wall clock, and the stdout of custom shell commands) supplied by an
  explicit environment value.

Python floats are modelled as rationals (every arithmetic step used by the
code - differences, divisions by powers of two, comparisons - is exact
enough for the stated properties), Python ints as integers, and fallible
paths as Option.
-/

namespace Obidome

/-- Truncation toward zero, the behaviour of Python's int() on a float. -/
def pyInt (q : ℚ) : ℤ := if 0 ≤ q then ⌊q⌋ else ⌈q⌉

/-- Whitespace stripping from both ends, the behaviour of Python's
str.strip() with no arguments (as used on the captured stdout of a custom
command). -/
def pyStrip (s : String) : String :=
  ⟨((s.data.dropWhile Char.isWhitespace).reverse.dropWhile Char.isWhitespace).reverse⟩

/-- Wraps the RECT structure from the Windows API (monitor.py). -/
structure RECT where
  left : ℤ
  top : ℤ
  right : ℤ
  bottom : ℤ
deriving DecidableEq, Repr

/-- Embedding of monitor.get_tray_notify_width_physical. The argument models
the two Windows calls the function makes: none means FindWindowExW did not
find the TrayNotifyWnd sub-window, some none means it was found but
GetWindowRect failed, some (some rect) is a successful rectangle probe. -/
def get_tray_notify_width_physical (tray : Option (Option RECT)) : ℤ :=
  match tray with
  | none => 150
  | some none => 150
  | some (some rect) => rect.right - rect.left

/-- Foreground window data as reported by GetForegroundWindow together with
GetClassNameW and GetWindowRect (monitor.py). -/
structure ForegroundWindow where
  className : String
  rect : RECT
deriving DecidableEq, Repr

/-- Window classes excluded by is_fullscreen_app_active (monitor.py line 61). -/
def excludedClasses : List String := ["WorkerW", "Progman", "Shell_TrayWnd", "DV2ControlHost"]

/-- Embedding of monitor.is_fullscreen_app_active. The parameters model, in
order, IsWindowVisible on the taskbar handle, GetForegroundWindow (none when
it returned a null handle) bundled with the class name and rectangle of the
foreground window, and GetSystemMetrics for the primary screen size. -/
def is_fullscreen_app_active (taskbarVisible : Bool) (fg : Option ForegroundWindow)
    (scr_w scr_h : ℤ) : Bool :=
  if !taskbarVisible then true
  else
    match fg with
    | none => false
    | some f =>
      if excludedClasses.contains f.className then false
      else decide (scr_w ≤ f.rect.right - f.rect.left ∧ scr_h ≤ f.rect.bottom - f.rect.top)

/-- Result of TaskbarMonitor.snap_position: the arguments of the final
move and resize calls (logical x, logical y, logical width, logical height). -/
structure SnapResult where
  x : ℤ
  y : ℤ
  w : ℤ
  h : ℤ
deriving DecidableEq, Repr

/-- Embedding of TaskbarMonitor.snap_position (monitor.py lines 196-224).
Inputs: the taskbar rectangle from GetWindowRect, the physical tray width,
the overlay's logical width from sizeHint, the configured right margin and
the device pixel ratio. -/
def snap_position (tb_rect : RECT) (tray_phys_w : ℤ) (my_log_w : ℤ)
    (margin_right : ℚ) (dpr : ℚ) : SnapResult :=
  let tb_phys_x : ℚ := tb_rect.left
  let tb_phys_y : ℚ := tb_rect.top
  let tb_phys_w : ℚ := tb_rect.right - tb_rect.left
  let tb_phys_h : ℚ := tb_rect.bottom - tb_rect.top
  let my_log_h : ℚ := tb_phys_h / dpr - 4
  let target_phys_x : ℚ := tb_phys_x + tb_phys_w - tray_phys_w - (my_log_w * dpr) - (margin_right * dpr)
  let target_phys_y : ℚ := tb_phys_y + (tb_phys_h - my_log_h * dpr) / 2
  ⟨pyInt (target_phys_x / dpr), pyInt (target_phys_y / dpr), my_log_w, pyInt my_log_h⟩

/-- State of a plot.SparklineGenerator: the deque of historical values, its
maxlen, and the normalisation bounds with their auto-scaling flags. -/
structure SparklineGenerator where
  history : List ℚ
  max_len : ℕ
  min_val : Option ℚ
  auto_min_val : Bool
  max_val : Option ℚ
  auto_max_val : Bool
deriving DecidableEq, Repr

/-- Embedding of SparklineGenerator.__init__ (plot.py lines 40-46): bounds
taken from the arguments, auto flags set when a bound is absent, history
initialised to max_len zeros. -/
def SparklineGenerator.init (max_len : ℕ) (min_val max_val : Option ℚ) : SparklineGenerator :=
  ⟨List.replicate max_len 0, max_len, min_val, min_val.isNone, max_val, max_val.isNone⟩

/-- Appending to a collections.deque with a maxlen: the new element goes to
the right and the leftmost elements are evicted down to maxlen. -/
def dequeAppend (maxlen : ℕ) (l : List ℚ) (v : ℚ) : List ℚ :=
  let l' := l ++ [v]
  if maxlen < l'.length then l'.drop (l'.length - maxlen) else l'

/-- Python's min over a list, none on the empty list (where Python raises). -/
def listMin : List ℚ → Option ℚ
  | [] => none
  | x :: xs => some (xs.foldl min x)

/-- Python's max over a list, none on the empty list (where Python raises). -/
def listMax : List ℚ → Option ℚ
  | [] => none
  | x :: xs => some (xs.foldl max x)

/-- State transition of SparklineGenerator.update_and_get_b64 (plot.py lines
54-65): append the new value to the deque, then, for an auto-scaled bound,
recompute it as the extremum of the updated history together with the
previous bound when one exists. Returns none exactly when the code would
raise (min/max of an empty sequence, or the explicit ValueError when a bound
is still None afterwards); the subsequent rasterisation is a pure function
of the returned state and is abstracted away. -/
def SparklineGenerator.update (s : SparklineGenerator) (new_value : ℚ) : Option SparklineGenerator :=
  let history := dequeAppend s.max_len s.history new_value
  let min_val := if s.auto_min_val then
      listMin (match s.min_val with | some m => history ++ [m] | none => history)
    else s.min_val
  let max_val := if s.auto_max_val then
      listMax (match s.max_val with | some m => history ++ [m] | none => history)
    else s.max_val
  match min_val, max_val with
  | some a, some b =>
      some { history := history, max_len := s.max_len, min_val := some a,
             auto_min_val := s.auto_min_val, max_val := some b, auto_max_val := s.auto_max_val }
  | _, _ => none

/-- Iterated updates of a SparklineGenerator over a list of samples. -/
def SparklineGenerator.updateAll (s : SparklineGenerator) : List ℚ → Option SparklineGenerator
  | [] => some s
  | v :: vs =>
    match s.update v with
    | none => none
    | some s' => s'.updateAll vs

/-- Result of LazySystemValueFetcher.__getitem__ and of the attribute lookup
it performs. int and rat are Python ints and floats, nanFloat is
float("nan"), str a Python string, plot the data URI string rendered by a
SparklineGenerator from the given post-update state, obj an opaque
non-metric attribute (the logger, a bound method, a settings object, a
dict), baseline a [timestamp, counter] rate-baseline list, and exn a
propagating Python exception. -/
inductive Value where
  | int (i : ℤ)
  | rat (q : ℚ)
  | nanFloat
  | str (s : String)
  | plot (p : SparklineGenerator)
  | obj (name : String)
  | baseline (t : ℚ) (c : ℤ)
  | exn (msg : String)
deriving DecidableEq, Repr

/-- The external world as seen by LazySystemValueFetcher during one
attribute read: the wall clock, the results the psutil queries would return
right now, the head of the process list sorted by descending cpu_percent,
and the stdout each custom shell command would produce at its n-th
invocation since process start. disk_io is none when
psutil.disk_io_counters() returns None; otherwise it carries
(read_bytes, write_bytes). virtual memory carries (percent, total, used)
and net carries (bytes_sent, bytes_recv). -/
structure Env where
  now : ℚ
  cpu_percent : ℚ
  vm_percent : ℚ
  vm_total : ℤ
  vm_used : ℤ
  bytes_sent : ℤ
  bytes_recv : ℤ
  disk_io : Option (ℤ × ℤ)
  top_process : String × ℚ
  subprocOut : String → ℕ → String

/-- The per-tick cache dictionary self._cache of LazySystemValueFetcher,
one field per cache key used by values.py. The outer Option is presence of
the key in the dict; for disk_io_counters the stored value may itself be
None, hence the nested Option. -/
structure Cache where
  cpu_percent : Option ℚ := none
  virtual_memory : Option (ℚ × ℤ × ℤ) := none
  net_io_counters : Option (ℤ × ℤ) := none
  process_iter : Option (String × ℚ) := none
  disk_io_counters : Option (Option (ℤ × ℤ)) := none
  disk_io_read_bytes_per_sec : Option ℚ := none
  disk_io_write_bytes_per_sec : Option ℚ := none
deriving DecidableEq, Repr

/-- Mutable state of a LazySystemValueFetcher instance: the cache dict, the
configured custom keys, the admin flag probed at startup, the four rate
baselines (absent until the first read of the corresponding rate metric,
mirroring hasattr), the two lazily created sparkline plotters, the number of
subprocess invocations performed so far, and the warning log. -/
structure LazySystemValueFetcher where
  cache : Cache
  custom_keys : List (String × String)
  is_admin : Bool
  network_bytes_sent_last : Option (ℚ × ℤ) := none
  network_bytes_recv_last : Option (ℚ × ℤ) := none
  disk_io_read_bytes_last : Option (ℚ × ℤ) := none
  disk_io_write_bytes_last : Option (ℚ × ℤ) := none
  cpu_percent_plotter : Option SparklineGenerator := none
  ram_percent_plotter : Option SparklineGenerator := none
  subprocCalls : ℕ := 0
  warnings : List String := []
deriving DecidableEq, Repr

namespace LazySystemValueFetcher

/-- Embedding of clear_cache (values.py lines 72-74): empties the cache
dict and touches nothing else. -/
def clear_cache (s : LazySystemValueFetcher) : LazySystemValueFetcher :=
  { s with cache := {} }

/-- Cache-or-query for psutil.cpu_percent (values.py lines 81-82). -/
def ensure_cpu_percent (env : Env) (s : LazySystemValueFetcher) :
    ℚ × LazySystemValueFetcher :=
  match s.cache.cpu_percent with
  | some v => (v, s)
  | none => (env.cpu_percent, { s with cache := { s.cache with cpu_percent := some env.cpu_percent } })

/-- Cache-or-query for psutil.virtual_memory (values.py lines 97-98). -/
def ensure_virtual_memory (env : Env) (s : LazySystemValueFetcher) :
    (ℚ × ℤ × ℤ) × LazySystemValueFetcher :=
  match s.cache.virtual_memory with
  | some v => (v, s)
  | none =>
    let v := (env.vm_percent, env.vm_total, env.vm_used)
    (v, { s with cache := { s.cache with virtual_memory := some v } })

/-- Cache-or-query for psutil.net_io_counters (values.py lines 177-178). -/
def ensure_net_io (env : Env) (s : LazySystemValueFetcher) :
    (ℤ × ℤ) × LazySystemValueFetcher :=
  match s.cache.net_io_counters with
  | some v => (v, s)
  | none =>
    let v := (env.bytes_sent, env.bytes_recv)
    (v, { s with cache := { s.cache with net_io_counters := some v } })

/-- Cache-or-query for the process list sorted by descending cpu_percent
(values.py lines 150-155); only the head of the sorted list is ever
consumed, so the model stores its (name, cpu_percent). -/
def ensure_process_iter (env : Env) (s : LazySystemValueFetcher) :
    (String × ℚ) × LazySystemValueFetcher :=
  match s.cache.process_iter with
  | some v => (v, s)
  | none => (env.top_process, { s with cache := { s.cache with process_iter := some env.top_process } })

/-- Cache-or-query for psutil.disk_io_counters (values.py lines 273-274);
the stored query result may be None. -/
def ensure_disk_io (env : Env) (s : LazySystemValueFetcher) :
    Option (ℤ × ℤ) × LazySystemValueFetcher :=
  match s.cache.disk_io_counters with
  | some v => (v, s)
  | none => (env.disk_io, { s with cache := { s.cache with disk_io_counters := some env.disk_io } })

/-- Numeric content of the cpu_percent property (values.py lines 78-83). -/
def cpu_percentQ (env : Env) (s : LazySystemValueFetcher) : ℚ × LazySystemValueFetcher :=
  ensure_cpu_percent env s

/-- Embedding of the cpu_percent property as seen through __getitem__. -/
def cpu_percent (env : Env) (s : LazySystemValueFetcher) : Value × LazySystemValueFetcher :=
  let (v, s1) := cpu_percentQ env s
  (Value.rat v, s1)

/-- Embedding of the cpu_percent_plot property (values.py lines 85-90): the
plotter is created on first use with fixed bounds 0 and 100 and default
length 30, cpu_percent is then read through the cache and pushed into the
plotter; the none branch of the update (a raised exception) is unreachable
here because the bounds are fixed. -/
def cpu_percent_plot (env : Env) (s : LazySystemValueFetcher) : Value × LazySystemValueFetcher :=
  let p := match s.cpu_percent_plotter with
    | some p => p
    | none => SparklineGenerator.init 30 (some 0) (some 100)
  let (v, s1) := cpu_percentQ env s
  match p.update v with
  | some p' => (Value.plot p', { s1 with cpu_percent_plotter := some p' })
  | none => (Value.exn "ValueError", s1)

/-- Numeric content of the ram_percent property (values.py lines 94-99). -/
def ram_percentQ (env : Env) (s : LazySystemValueFetcher) : ℚ × LazySystemValueFetcher :=
  let (vm, s1) := ensure_virtual_memory env s
  (vm.1, s1)

/-- Embedding of the ram_percent property. -/
def ram_percent (env : Env) (s : LazySystemValueFetcher) : Value × LazySystemValueFetcher :=
  let (v, s1) := ram_percentQ env s
  (Value.rat v, s1)

/-- Embedding of the ram_percent_plot property (values.py lines 101-106),
analogous to cpu_percent_plot. -/
def ram_percent_plot (env : Env) (s : LazySystemValueFetcher) : Value × LazySystemValueFetcher :=
  let p := match s.ram_percent_plotter with
    | some p => p
    | none => SparklineGenerator.init 30 (some 0) (some 100)
  let (v, s1) := ram_percentQ env s
  match p.update v with
  | some p' => (Value.plot p', { s1 with ram_percent_plotter := some p' })
  | none => (Value.exn "ValueError", s1)

/-- Numeric content of the ram_total property (values.py lines 108-113). -/
def ram_totalZ (env : Env) (s : LazySystemValueFetcher) : ℤ × LazySystemValueFetcher :=
  let (vm, s1) := ensure_virtual_memory env s
  (vm.2.1, s1)

/-- Embedding of the ram_total property. -/
def ram_total (env : Env) (s : LazySystemValueFetcher) : Value × LazySystemValueFetcher :=
  let (b, s1) := ram_totalZ env s
  (Value.int b, s1)

/-- Embedding of the ram_total_mb property (values.py lines 115-118). -/
def ram_total_mb (env : Env) (s : LazySystemValueFetcher) : Value × LazySystemValueFetcher :=
  let (b, s1) := ram_totalZ env s
  (Value.rat ((b : ℚ) / (1024 * 1024)), s1)

/-- Embedding of the ram_total_gb property (values.py lines 120-123). -/
def ram_total_gb (env : Env) (s : LazySystemValueFetcher) : Value × LazySystemValueFetcher :=
  let (b, s1) := ram_totalZ env s
  (Value.rat ((b : ℚ) / (1024 * 1024 * 1024)), s1)

/-- Numeric content of the ram_used property (values.py lines 125-130). -/
def ram_usedZ (env : Env) (s : LazySystemValueFetcher) : ℤ × LazySystemValueFetcher :=
  let (vm, s1) := ensure_virtual_memory env s
  (vm.2.2, s1)

/-- Embedding of the ram_used property. -/
def ram_used (env : Env) (s : LazySystemValueFetcher) : Value × LazySystemValueFetcher :=
  let (b, s1) := ram_usedZ env s
  (Value.int b, s1)

/-- Embedding of the ram_used_mb property (values.py lines 132-135). -/
def ram_used_mb (env : Env) (s : LazySystemValueFetcher) : Value × LazySystemValueFetcher :=
  let (b, s1) := ram_usedZ env s
  (Value.rat ((b : ℚ) / (1024 * 1024)), s1)

/-- Embedding of the ram_used_gb property (values.py lines 137-140). -/
def ram_used_gb (env : Env) (s : LazySystemValueFetcher) : Value × LazySystemValueFetcher :=
  let (b, s1) := ram_usedZ env s
  (Value.rat ((b : ℚ) / (1024 * 1024 * 1024)), s1)

/-- Embedding of the cpu_demanding_process property (values.py lines
144-156): the N/A sentinel without admin rights, otherwise the name of the
head of the cached sorted process list. -/
def cpu_demanding_process (env : Env) (s : LazySystemValueFetcher) : Value × LazySystemValueFetcher :=
  if !s.is_admin then (Value.str "N/A", s)
  else
    let (p, s1) := ensure_process_iter env s
    (Value.str p.1, s1)

/-- Embedding of the cpu_demanding_process_cpu_percent property (values.py
lines 158-170): float("nan") without admin rights. -/
def cpu_demanding_process_cpu_percent (env : Env) (s : LazySystemValueFetcher) :
    Value × LazySystemValueFetcher :=
  if !s.is_admin then (Value.nanFloat, s)
  else
    let (p, s1) := ensure_process_iter env s
    (Value.rat p.2, s1)

/-- Numeric content of the network_bytes_sent property (values.py lines
174-179). -/
def network_bytes_sentZ (env : Env) (s : LazySystemValueFetcher) : ℤ × LazySystemValueFetcher :=
  let (net, s1) := ensure_net_io env s
  (net.1, s1)

/-- Embedding of the network_bytes_sent property. -/
def network_bytes_sent (env : Env) (s : LazySystemValueFetcher) : Value × LazySystemValueFetcher :=
  let (b, s1) := network_bytes_sentZ env s
  (Value.int b, s1)

/-- Embedding of the network_kb_sent property (values.py lines 181-184). -/
def network_kb_sent (env : Env) (s : LazySystemValueFetcher) : Value × LazySystemValueFetcher :=
  let (b, s1) := network_bytes_sentZ env s
  (Value.rat ((b : ℚ) / 1024), s1)

/-- Embedding of the network_mb_sent property (values.py lines 186-189). -/
def network_mb_sent (env : Env) (s : LazySystemValueFetcher) : Value × LazySystemValueFetcher :=
  let (b, s1) := network_bytes_sentZ env s
  (Value.rat ((b : ℚ) / (1024 * 1024)), s1)

/-- Numeric content of the network_bytes_sent_per_sec property (values.py
lines 191-204): cache-or-query the counters, then on the first-ever read
record the (time, counter) baseline and return 0; on any later read divide
the counter delta by the elapsed time and overwrite the baseline. -/
def network_bytes_sent_per_secQ (env : Env) (s : LazySystemValueFetcher) :
    ℚ × LazySystemValueFetcher :=
  let (net, s1) := ensure_net_io env s
  match s1.network_bytes_sent_last with
  | none => (0, { s1 with network_bytes_sent_last := some (env.now, net.1) })
  | some last =>
    let bytes_per_sec : ℚ := ((net.1 - last.2 : ℤ) : ℚ) / (env.now - last.1)
    (bytes_per_sec, { s1 with network_bytes_sent_last := some (env.now, net.1) })

/-- Embedding of the network_bytes_sent_per_sec property. -/
def network_bytes_sent_per_sec (env : Env) (s : LazySystemValueFetcher) :
    Value × LazySystemValueFetcher :=
  let (v, s1) := network_bytes_sent_per_secQ env s
  (Value.rat v, s1)

/-- Embedding of the network_kb_sent_per_sec property (values.py lines
206-209): a single further invocation of the base rate property. -/
def network_kb_sent_per_sec (env : Env) (s : LazySystemValueFetcher) :
    Value × LazySystemValueFetcher :=
  let (v, s1) := network_bytes_sent_per_secQ env s
  (Value.rat (v / 1024), s1)

/-- Embedding of the network_mb_sent_per_sec property (values.py lines
211-214). -/
def network_mb_sent_per_sec (env : Env) (s : LazySystemValueFetcher) :
    Value × LazySystemValueFetcher :=
  let (v, s1) := network_bytes_sent_per_secQ env s
  (Value.rat (v / (1024 * 1024)), s1)

/-- Numeric content of the network_bytes_recv property (values.py lines
216-221). -/
def network_bytes_recvZ (env : Env) (s : LazySystemValueFetcher) : ℤ × LazySystemValueFetcher :=
  let (net, s1) := ensure_net_io env s
  (net.2, s1)

/-- Embedding of the network_bytes_recv property. -/
def network_bytes_recv (env : Env) (s : LazySystemValueFetcher) : Value × LazySystemValueFetcher :=
  let (b, s1) := network_bytes_recvZ env s
  (Value.int b, s1)

/-- Embedding of the network_kb_recv property (values.py lines 223-226). -/
def network_kb_recv (env : Env) (s : LazySystemValueFetcher) : Value × LazySystemValueFetcher :=
  let (b, s1) := network_bytes_recvZ env s
  (Value.rat ((b : ℚ) / 1024), s1)

/-- Embedding of the network_mb_recv property (values.py lines 228-231). -/
def network_mb_recv (env : Env) (s : LazySystemValueFetcher) : Value × LazySystemValueFetcher :=
  let (b, s1) := network_bytes_recvZ env s
  (Value.rat ((b : ℚ) / (1024 * 1024)), s1)

/-- Embedding of the network_gb_recv property (values.py lines 233-236). -/
def network_gb_recv (env : Env) (s : LazySystemValueFetcher) : Value × LazySystemValueFetcher :=
  let (b, s1) := network_bytes_recvZ env s
  (Value.rat ((b : ℚ) / (1024 * 1024 * 1024)), s1)

/-- Numeric content of the network_bytes_recv_per_sec property (values.py
lines 238-251), mirror image of the sent variant. -/
def network_bytes_recv_per_secQ (env : Env) (s : LazySystemValueFetcher) :
    ℚ × LazySystemValueFetcher :=
  let (net, s1) := ensure_net_io env s
  match s1.network_bytes_recv_last with
  | none => (0, { s1 with network_bytes_recv_last := some (env.now, net.2) })
  | some last =>
    let bytes_per_sec : ℚ := ((net.2 - last.2 : ℤ) : ℚ) / (env.now - last.1)
    (bytes_per_sec, { s1 with network_bytes_recv_last := some (env.now, net.2) })

/-- Embedding of the network_bytes_recv_per_sec property. -/
def network_bytes_recv_per_sec (env : Env) (s : LazySystemValueFetcher) :
    Value × LazySystemValueFetcher :=
  let (v, s1) := network_bytes_recv_per_secQ env s
  (Value.rat v, s1)

/-- Embedding of the network_kb_recv_per_sec property (values.py lines
253-256). -/
def network_kb_recv_per_sec (env : Env) (s : LazySystemValueFetcher) :
    Value × LazySystemValueFetcher :=
  let (v, s1) := network_bytes_recv_per_secQ env s
  (Value.rat (v / 1024), s1)

/-- Embedding of the network_mb_recv_per_sec property (values.py lines
258-261). -/
def network_mb_recv_per_sec (env : Env) (s : LazySystemValueFetcher) :
    Value × LazySystemValueFetcher :=
  let (v, s1) := network_bytes_recv_per_secQ env s
  (Value.rat (v / (1024 * 1024)), s1)

/-- Embedding of the network_gb_recv_per_sec property (values.py lines
263-266). -/
def network_gb_recv_per_sec (env : Env) (s : LazySystemValueFetcher) :
    Value × LazySystemValueFetcher :=
  let (v, s1) := network_bytes_recv_per_secQ env s
  (Value.rat (v / (1024 * 1024 * 1024)), s1)

/-- Numeric content of the disk_io_read_bytes property (values.py lines
270-277): the -1 sentinel when the cached psutil.disk_io_counters() result
is None. -/
def disk_io_read_bytesZ (env : Env) (s : LazySystemValueFetcher) : ℤ × LazySystemValueFetcher :=
  let (d, s1) := ensure_disk_io env s
  match d with
  | none => (-1, s1)
  | some c => (c.1, s1)

/-- Embedding of the disk_io_read_bytes property. -/
def disk_io_read_bytes (env : Env) (s : LazySystemValueFetcher) : Value × LazySystemValueFetcher :=
  let (b, s1) := disk_io_read_bytesZ env s
  (Value.int b, s1)

/-- Embedding of the disk_io_read_kb property (values.py lines 279-284):
the code reads the base property once for the sentinel test and, when it is
not -1, a second time for the division; the second read hits the cache. -/
def disk_io_read_kb (env : Env) (s : LazySystemValueFetcher) : Value × LazySystemValueFetcher :=
  let (b, s1) := disk_io_read_bytesZ env s
  if b = -1 then (Value.int (-1), s1)
  else
    let (b2, s2) := disk_io_read_bytesZ env s1
    (Value.rat ((b2 : ℚ) / 1024), s2)

/-- Embedding of the disk_io_read_mb property (values.py lines 286-291). -/
def disk_io_read_mb (env : Env) (s : LazySystemValueFetcher) : Value × LazySystemValueFetcher :=
  let (b, s1) := disk_io_read_bytesZ env s
  if b = -1 then (Value.int (-1), s1)
  else
    let (b2, s2) := disk_io_read_bytesZ env s1
    (Value.rat ((b2 : ℚ) / (1024 * 1024)), s2)

/-- Embedding of the disk_io_read_gb property (values.py lines 293-298). -/
def disk_io_read_gb (env : Env) (s : LazySystemValueFetcher) : Value × LazySystemValueFetcher :=
  let (b, s1) := disk_io_read_bytesZ env s
  if b = -1 then (Value.int (-1), s1)
  else
    let (b2, s2) := disk_io_read_bytesZ env s1
    (Value.rat ((b2 : ℚ) / (1024 * 1024 * 1024)), s2)

/-- The read_bytes and write_bytes fields of the cached disk counters, the
expression self._cache["psutil.disk_io_counters"].read_bytes used when a
disk rate baseline is stored; the code only evaluates it on paths where the
key is present and not None, so the fallback is unreachable there. -/
def cachedDiskCounters (s : LazySystemValueFetcher) : ℤ × ℤ :=
  match s.cache.disk_io_counters with
  | some (some c) => c
  | _ => (0, 0)

/-- Numeric content of the disk_io_read_bytes_per_sec property (values.py
lines 300-316): the computed rate for the tick is itself cached; the -1
sentinel short-circuits; the first-ever read stores the baseline and
returns 0 without caching a rate; a later read recomputes the rate from a
fresh property read of the base (a cache hit), overwrites the baseline and
caches the rate. -/
def disk_io_read_bytes_per_secQ (env : Env) (s : LazySystemValueFetcher) :
    ℚ × LazySystemValueFetcher :=
  match s.cache.disk_io_read_bytes_per_sec with
  | some r => (r, s)
  | none =>
    let (b, s1) := disk_io_read_bytesZ env s
    if b = -1 then (-1, s1)
    else
      match s1.disk_io_read_bytes_last with
      | none =>
        (0, { s1 with disk_io_read_bytes_last := some (env.now, (cachedDiskCounters s1).1) })
      | some last =>
        let (b2, s2) := disk_io_read_bytesZ env s1
        let bytes_per_sec : ℚ := ((b2 - last.2 : ℤ) : ℚ) / (env.now - last.1)
        (bytes_per_sec,
         { s2 with disk_io_read_bytes_last := some (env.now, (cachedDiskCounters s2).1),
                   cache := { s2.cache with disk_io_read_bytes_per_sec := some bytes_per_sec } })

/-- Embedding of the disk_io_read_bytes_per_sec property. -/
def disk_io_read_bytes_per_sec (env : Env) (s : LazySystemValueFetcher) :
    Value × LazySystemValueFetcher :=
  let (v, s1) := disk_io_read_bytes_per_secQ env s
  (Value.rat v, s1)

/-- Embedding of the disk_io_read_kb_per_sec property (values.py lines
318-322): the base rate property is invoked once for the sentinel test and,
when not -1.0, invoked again for the division. -/
def disk_io_read_kb_per_sec (env : Env) (s : LazySystemValueFetcher) :
    Value × LazySystemValueFetcher :=
  let (v, s1) := disk_io_read_bytes_per_secQ env s
  if v ≠ -1 then
    let (v2, s2) := disk_io_read_bytes_per_secQ env s1
    (Value.rat (v2 / 1024), s2)
  else (Value.rat (-1), s1)

/-- Embedding of the disk_io_read_mb_per_sec property (values.py lines
324-328). -/
def disk_io_read_mb_per_sec (env : Env) (s : LazySystemValueFetcher) :
    Value × LazySystemValueFetcher :=
  let (v, s1) := disk_io_read_bytes_per_secQ env s
  if v ≠ -1 then
    let (v2, s2) := disk_io_read_bytes_per_secQ env s1
    (Value.rat (v2 / (1024 * 1024)), s2)
  else (Value.rat (-1), s1)

/-- Embedding of the disk_io_read_gb_per_sec property (values.py lines
330-334). -/
def disk_io_read_gb_per_sec (env : Env) (s : LazySystemValueFetcher) :
    Value × LazySystemValueFetcher :=
  let (v, s1) := disk_io_read_bytes_per_secQ env s
  if v ≠ -1 then
    let (v2, s2) := disk_io_read_bytes_per_secQ env s1
    (Value.rat (v2 / (1024 * 1024 * 1024)), s2)
  else (Value.rat (-1), s1)

/-- Numeric content of the disk_io_write_bytes property (values.py lines
336-343). -/
def disk_io_write_bytesZ (env : Env) (s : LazySystemValueFetcher) : ℤ × LazySystemValueFetcher :=
  let (d, s1) := ensure_disk_io env s
  match d with
  | none => (-1, s1)
  | some c => (c.2, s1)

/-- Embedding of the disk_io_write_bytes property. -/
def disk_io_write_bytes (env : Env) (s : LazySystemValueFetcher) : Value × LazySystemValueFetcher :=
  let (b, s1) := disk_io_write_bytesZ env s
  (Value.int b, s1)

/-- Embedding of the disk_io_write_kb property (values.py lines 345-350). -/
def disk_io_write_kb (env : Env) (s : LazySystemValueFetcher) : Value × LazySystemValueFetcher :=
  let (b, s1) := disk_io_write_bytesZ env s
  if b = -1 then (Value.int (-1), s1)
  else
    let (b2, s2) := disk_io_write_bytesZ env s1
    (Value.rat ((b2 : ℚ) / 1024), s2)

/-- Embedding of the disk_io_write_mb property (values.py lines 352-357). -/
def disk_io_write_mb (env : Env) (s : LazySystemValueFetcher) : Value × LazySystemValueFetcher :=
  let (b, s1) := disk_io_write_bytesZ env s
  if b = -1 then (Value.int (-1), s1)
  else
    let (b2, s2) := disk_io_write_bytesZ env s1
    (Value.rat ((b2 : ℚ) / (1024 * 1024)), s2)

/-- Embedding of the disk_io_write_gb property (values.py lines 359-364). -/
def disk_io_write_gb (env : Env) (s : LazySystemValueFetcher) : Value × LazySystemValueFetcher :=
  let (b, s1) := disk_io_write_bytesZ env s
  if b = -1 then (Value.int (-1), s1)
  else
    let (b2, s2) := disk_io_write_bytesZ env s1
    (Value.rat ((b2 : ℚ) / (1024 * 1024 * 1024)), s2)

/-- Numeric content of the disk_io_write_bytes_per_sec property (values.py
lines 366-382), mirror image of the read variant. -/
def disk_io_write_bytes_per_secQ (env : Env) (s : LazySystemValueFetcher) :
    ℚ × LazySystemValueFetcher :=
  match s.cache.disk_io_write_bytes_per_sec with
  | some r => (r, s)
  | none =>
    let (b, s1) := disk_io_write_bytesZ env s
    if b = -1 then (-1, s1)
    else
      match s1.disk_io_write_bytes_last with
      | none =>
        (0, { s1 with disk_io_write_bytes_last := some (env.now, (cachedDiskCounters s1).2) })
      | some last =>
        let (b2, s2) := disk_io_write_bytesZ env s1
        let bytes_per_sec : ℚ := ((b2 - last.2 : ℤ) : ℚ) / (env.now - last.1)
        (bytes_per_sec,
         { s2 with disk_io_write_bytes_last := some (env.now, (cachedDiskCounters s2).2),
                   cache := { s2.cache with disk_io_write_bytes_per_sec := some bytes_per_sec } })

/-- Embedding of the disk_io_write_bytes_per_sec property. -/
def disk_io_write_bytes_per_sec (env : Env) (s : LazySystemValueFetcher) :
    Value × LazySystemValueFetcher :=
  let (v, s1) := disk_io_write_bytes_per_secQ env s
  (Value.rat v, s1)

/-- Embedding of the disk_io_write_kb_per_sec property (values.py lines
384-388). -/
def disk_io_write_kb_per_sec (env : Env) (s : LazySystemValueFetcher) :
    Value × LazySystemValueFetcher :=
  let (v, s1) := disk_io_write_bytes_per_secQ env s
  if v ≠ -1 then
    let (v2, s2) := disk_io_write_bytes_per_secQ env s1
    (Value.rat (v2 / 1024), s2)
  else (Value.rat (-1), s1)

/-- Embedding of the disk_io_write_mb_per_sec property (values.py lines
390-394). -/
def disk_io_write_mb_per_sec (env : Env) (s : LazySystemValueFetcher) :
    Value × LazySystemValueFetcher :=
  let (v, s1) := disk_io_write_bytes_per_secQ env s
  if v ≠ -1 then
    let (v2, s2) := disk_io_write_bytes_per_secQ env s1
    (Value.rat (v2 / (1024 * 1024)), s2)
  else (Value.rat (-1), s1)

/-- Embedding of the disk_io_write_gb_per_sec property (values.py lines
396-400). -/
def disk_io_write_gb_per_sec (env : Env) (s : LazySystemValueFetcher) :
    Value × LazySystemValueFetcher :=
  let (v, s1) := disk_io_write_bytes_per_secQ env s
  if v ≠ -1 then
    let (v2, s2) := disk_io_write_bytes_per_secQ env s1
    (Value.rat (v2 / (1024 * 1024 * 1024)), s2)
  else (Value.rat (-1), s1)

/-- The getattr(self, key, None) step of __getitem__: attribute lookup on a
LazySystemValueFetcher instance. Every property defined in values.py is
dispatched to its embedding; the instance attributes assigned in __init__
and load_settings resolve to their (opaque) values; the rate baselines and
the two plotters resolve only when they have been created, mirroring
hasattr; the methods defined on the class resolve to bound-method objects.
Attributes inherited from dict and object (dunder methods, dict.keys and
the like) also resolve in Python and are omitted here; none of them is a
metric and no theorem below relies on their absence. Returns none when the
lookup falls through to the getattr default None. -/
def attrGet (env : Env) (s : LazySystemValueFetcher) (key : String) :
    Option (Value × LazySystemValueFetcher) :=
  match key with
  | "cpu_percent" => some (cpu_percent env s)
  | "cpu_percent_plot" => some (cpu_percent_plot env s)
  | "ram_percent" => some (ram_percent env s)
  | "ram_percent_plot" => some (ram_percent_plot env s)
  | "ram_total" => some (ram_total env s)
  | "ram_total_mb" => some (ram_total_mb env s)
  | "ram_total_gb" => some (ram_total_gb env s)
  | "ram_used" => some (ram_used env s)
  | "ram_used_mb" => some (ram_used_mb env s)
  | "ram_used_gb" => some (ram_used_gb env s)
  | "cpu_demanding_process" => some (cpu_demanding_process env s)
  | "cpu_demanding_process_cpu_percent" => some (cpu_demanding_process_cpu_percent env s)
  | "network_bytes_sent" => some (network_bytes_sent env s)
  | "network_kb_sent" => some (network_kb_sent env s)
  | "network_mb_sent" => some (network_mb_sent env s)
  | "network_bytes_sent_per_sec" => some (network_bytes_sent_per_sec env s)
  | "network_kb_sent_per_sec" => some (network_kb_sent_per_sec env s)
  | "network_mb_sent_per_sec" => some (network_mb_sent_per_sec env s)
  | "network_bytes_recv" => some (network_bytes_recv env s)
  | "network_kb_recv" => some (network_kb_recv env s)
  | "network_mb_recv" => some (network_mb_recv env s)
  | "network_gb_recv" => some (network_gb_recv env s)
  | "network_bytes_recv_per_sec" => some (network_bytes_recv_per_sec env s)
  | "network_kb_recv_per_sec" => some (network_kb_recv_per_sec env s)
  | "network_mb_recv_per_sec" => some (network_mb_recv_per_sec env s)
  | "network_gb_recv_per_sec" => some (network_gb_recv_per_sec env s)
  | "disk_io_read_bytes" => some (disk_io_read_bytes env s)
  | "disk_io_read_kb" => some (disk_io_read_kb env s)
  | "disk_io_read_mb" => some (disk_io_read_mb env s)
  | "disk_io_read_gb" => some (disk_io_read_gb env s)
  | "disk_io_read_bytes_per_sec" => some (disk_io_read_bytes_per_sec env s)
  | "disk_io_read_kb_per_sec" => some (disk_io_read_kb_per_sec env s)
  | "disk_io_read_mb_per_sec" => some (disk_io_read_mb_per_sec env s)
  | "disk_io_read_gb_per_sec" => some (disk_io_read_gb_per_sec env s)
  | "disk_io_write_bytes" => some (disk_io_write_bytes env s)
  | "disk_io_write_kb" => some (disk_io_write_kb env s)
  | "disk_io_write_mb" => some (disk_io_write_mb env s)
  | "disk_io_write_gb" => some (disk_io_write_gb env s)
  | "disk_io_write_bytes_per_sec" => some (disk_io_write_bytes_per_sec env s)
  | "disk_io_write_kb_per_sec" => some (disk_io_write_kb_per_sec env s)
  | "disk_io_write_mb_per_sec" => some (disk_io_write_mb_per_sec env s)
  | "disk_io_write_gb_per_sec" => some (disk_io_write_gb_per_sec env s)
  | "logger" => some (Value.obj "logger", s)
  | "is_admin" => some (Value.int (if s.is_admin then 1 else 0), s)
  | "load_settings" => some (Value.obj "bound method load_settings", s)
  | "clear_cache" => some (Value.obj "bound method clear_cache", s)
  | "_cache" => some (Value.obj "dict _cache", s)
  | "_custom_keys" => some (Value.obj "dict _custom_keys", s)
  | "_cpu_percent_plot_settings" => some (Value.obj "SparklineSettings", s)
  | "_ram_percent_plot_settings" => some (Value.obj "SparklineSettings", s)
  | "_cpu_percent_plotter" => s.cpu_percent_plotter.map (fun p => (Value.plot p, s))
  | "_ram_percent_plotter" => s.ram_percent_plotter.map (fun p => (Value.plot p, s))
  | "_network_bytes_sent_last" =>
    s.network_bytes_sent_last.map (fun l => (Value.baseline l.1 l.2, s))
  | "_network_bytes_recv_last" =>
    s.network_bytes_recv_last.map (fun l => (Value.baseline l.1 l.2, s))
  | "_disk_io_read_bytes_last" =>
    s.disk_io_read_bytes_last.map (fun l => (Value.baseline l.1 l.2, s))
  | "_disk_io_write_bytes_last" =>
    s.disk_io_write_bytes_last.map (fun l => (Value.baseline l.1 l.2, s))
  | _ => none

/-- Embedding of LazySystemValueFetcher.__getitem__ (values.py lines
57-70): attribute lookup first; when that yields None, a configured custom
key runs its shell command synchronously and returns the trimmed stdout
(one more subprocess invocation, no caching); otherwise a warning is logged
and the sentinel string is returned. -/
def getitem (env : Env) (s : LazySystemValueFetcher) (key : String) :
    Value × LazySystemValueFetcher :=
  match attrGet env s key with
  | some r => r
  | none =>
    match List.lookup key s.custom_keys with
    | some cmd =>
      (Value.str (pyStrip (env.subprocOut cmd s.subprocCalls)),
       { s with subprocCalls := s.subprocCalls + 1 })
    | none => (Value.str "N/A", { s with warnings := s.warnings ++ [key] })

/-! Reduction of getitem at each built-in metric key: the getattr step of
__getitem__ dispatches the key to the corresponding property. -/

lemma getitem_eq_cpu_percent (env : Env) (s : LazySystemValueFetcher) :
    getitem env s "cpu_percent" = cpu_percent env s := rfl

lemma getitem_eq_cpu_percent_plot (env : Env) (s : LazySystemValueFetcher) :
    getitem env s "cpu_percent_plot" = cpu_percent_plot env s := rfl

lemma getitem_eq_ram_percent (env : Env) (s : LazySystemValueFetcher) :
    getitem env s "ram_percent" = ram_percent env s := rfl

lemma getitem_eq_ram_percent_plot (env : Env) (s : LazySystemValueFetcher) :
    getitem env s "ram_percent_plot" = ram_percent_plot env s := rfl

lemma getitem_eq_ram_total (env : Env) (s : LazySystemValueFetcher) :
    getitem env s "ram_total" = ram_total env s := rfl

lemma getitem_eq_ram_total_mb (env : Env) (s : LazySystemValueFetcher) :
    getitem env s "ram_total_mb" = ram_total_mb env s := rfl

lemma getitem_eq_ram_total_gb (env : Env) (s : LazySystemValueFetcher) :
    getitem env s "ram_total_gb" = ram_total_gb env s := rfl

lemma getitem_eq_ram_used (env : Env) (s : LazySystemValueFetcher) :
    getitem env s "ram_used" = ram_used env s := rfl

lemma getitem_eq_ram_used_mb (env : Env) (s : LazySystemValueFetcher) :
    getitem env s "ram_used_mb" = ram_used_mb env s := rfl

lemma getitem_eq_ram_used_gb (env : Env) (s : LazySystemValueFetcher) :
    getitem env s "ram_used_gb" = ram_used_gb env s := rfl

lemma getitem_eq_cpu_demanding_process (env : Env) (s : LazySystemValueFetcher) :
    getitem env s "cpu_demanding_process" = cpu_demanding_process env s := rfl

lemma getitem_eq_cpu_demanding_process_cpu_percent (env : Env) (s : LazySystemValueFetcher) :
    getitem env s "cpu_demanding_process_cpu_percent" = cpu_demanding_process_cpu_percent env s := rfl

lemma getitem_eq_network_bytes_sent (env : Env) (s : LazySystemValueFetcher) :
    getitem env s "network_bytes_sent" = network_bytes_sent env s := rfl

lemma getitem_eq_network_kb_sent (env : Env) (s : LazySystemValueFetcher) :
    getitem env s "network_kb_sent" = network_kb_sent env s := rfl

lemma getitem_eq_network_mb_sent (env : Env) (s : LazySystemValueFetcher) :
    getitem env s "network_mb_sent" = network_mb_sent env s := rfl

lemma getitem_eq_network_bytes_sent_per_sec (env : Env) (s : LazySystemValueFetcher) :
    getitem env s "network_bytes_sent_per_sec" = network_bytes_sent_per_sec env s := rfl

lemma getitem_eq_network_kb_sent_per_sec (env : Env) (s : LazySystemValueFetcher) :
    getitem env s "network_kb_sent_per_sec" = network_kb_sent_per_sec env s := rfl

lemma getitem_eq_network_mb_sent_per_sec (env : Env) (s : LazySystemValueFetcher) :
    getitem env s "network_mb_sent_per_sec" = network_mb_sent_per_sec env s := rfl

lemma getitem_eq_network_bytes_recv (env : Env) (s : LazySystemValueFetcher) :
    getitem env s "network_bytes_recv" = network_bytes_recv env s := rfl

lemma getitem_eq_network_kb_recv (env : Env) (s : LazySystemValueFetcher) :
    getitem env s "network_kb_recv" = network_kb_recv env s := rfl

lemma getitem_eq_network_mb_recv (env : Env) (s : LazySystemValueFetcher) :
    getitem env s "network_mb_recv" = network_mb_recv env s := rfl

lemma getitem_eq_network_gb_recv (env : Env) (s : LazySystemValueFetcher) :
    getitem env s "network_gb_recv" = network_gb_recv env s := rfl

lemma getitem_eq_network_bytes_recv_per_sec (env : Env) (s : LazySystemValueFetcher) :
    getitem env s "network_bytes_recv_per_sec" = network_bytes_recv_per_sec env s := rfl

lemma getitem_eq_network_kb_recv_per_sec (env : Env) (s : LazySystemValueFetcher) :
    getitem env s "network_kb_recv_per_sec" = network_kb_recv_per_sec env s := rfl

lemma getitem_eq_network_mb_recv_per_sec (env : Env) (s : LazySystemValueFetcher) :
    getitem env s "network_mb_recv_per_sec" = network_mb_recv_per_sec env s := rfl

lemma getitem_eq_network_gb_recv_per_sec (env : Env) (s : LazySystemValueFetcher) :
    getitem env s "network_gb_recv_per_sec" = network_gb_recv_per_sec env s := rfl

lemma getitem_eq_disk_io_read_bytes (env : Env) (s : LazySystemValueFetcher) :
    getitem env s "disk_io_read_bytes" = disk_io_read_bytes env s := rfl

lemma getitem_eq_disk_io_read_kb (env : Env) (s : LazySystemValueFetcher) :
    getitem env s "disk_io_read_kb" = disk_io_read_kb env s := rfl

lemma getitem_eq_disk_io_read_mb (env : Env) (s : LazySystemValueFetcher) :
    getitem env s "disk_io_read_mb" = disk_io_read_mb env s := rfl

lemma getitem_eq_disk_io_read_gb (env : Env) (s : LazySystemValueFetcher) :
    getitem env s "disk_io_read_gb" = disk_io_read_gb env s := rfl

lemma getitem_eq_disk_io_read_bytes_per_sec (env : Env) (s : LazySystemValueFetcher) :
    getitem env s "disk_io_read_bytes_per_sec" = disk_io_read_bytes_per_sec env s := rfl

lemma getitem_eq_disk_io_read_kb_per_sec (env : Env) (s : LazySystemValueFetcher) :
    getitem env s "disk_io_read_kb_per_sec" = disk_io_read_kb_per_sec env s := rfl

lemma getitem_eq_disk_io_read_mb_per_sec (env : Env) (s : LazySystemValueFetcher) :
    getitem env s "disk_io_read_mb_per_sec" = disk_io_read_mb_per_sec env s := rfl

lemma getitem_eq_disk_io_read_gb_per_sec (env : Env) (s : LazySystemValueFetcher) :
    getitem env s "disk_io_read_gb_per_sec" = disk_io_read_gb_per_sec env s := rfl

lemma getitem_eq_disk_io_write_bytes (env : Env) (s : LazySystemValueFetcher) :
    getitem env s "disk_io_write_bytes" = disk_io_write_bytes env s := rfl

lemma getitem_eq_disk_io_write_kb (env : Env) (s : LazySystemValueFetcher) :
    getitem env s "disk_io_write_kb" = disk_io_write_kb env s := rfl

lemma getitem_eq_disk_io_write_mb (env : Env) (s : LazySystemValueFetcher) :
    getitem env s "disk_io_write_mb" = disk_io_write_mb env s := rfl

lemma getitem_eq_disk_io_write_gb (env : Env) (s : LazySystemValueFetcher) :
    getitem env s "disk_io_write_gb" = disk_io_write_gb env s := rfl

lemma getitem_eq_disk_io_write_bytes_per_sec (env : Env) (s : LazySystemValueFetcher) :
    getitem env s "disk_io_write_bytes_per_sec" = disk_io_write_bytes_per_sec env s := rfl

lemma getitem_eq_disk_io_write_kb_per_sec (env : Env) (s : LazySystemValueFetcher) :
    getitem env s "disk_io_write_kb_per_sec" = disk_io_write_kb_per_sec env s := rfl

lemma getitem_eq_disk_io_write_mb_per_sec (env : Env) (s : LazySystemValueFetcher) :
    getitem env s "disk_io_write_mb_per_sec" = disk_io_write_mb_per_sec env s := rfl

lemma getitem_eq_disk_io_write_gb_per_sec (env : Env) (s : LazySystemValueFetcher) :
    getitem env s "disk_io_write_gb_per_sec" = disk_io_write_gb_per_sec env s := rfl

end LazySystemValueFetcher

/-- Names of the built-in metric properties defined on
LazySystemValueFetcher in values.py. -/
def builtinMetricKeys : List String :=
  ["cpu_percent", "cpu_percent_plot", "ram_percent", "ram_percent_plot",
   "ram_total", "ram_total_mb", "ram_total_gb",
   "ram_used", "ram_used_mb", "ram_used_gb",
   "cpu_demanding_process", "cpu_demanding_process_cpu_percent",
   "network_bytes_sent", "network_kb_sent", "network_mb_sent",
   "network_bytes_sent_per_sec", "network_kb_sent_per_sec", "network_mb_sent_per_sec",
   "network_bytes_recv", "network_kb_recv", "network_mb_recv", "network_gb_recv",
   "network_bytes_recv_per_sec", "network_kb_recv_per_sec", "network_mb_recv_per_sec",
   "network_gb_recv_per_sec",
   "disk_io_read_bytes", "disk_io_read_kb", "disk_io_read_mb", "disk_io_read_gb",
   "disk_io_read_bytes_per_sec", "disk_io_read_kb_per_sec", "disk_io_read_mb_per_sec",
   "disk_io_read_gb_per_sec",
   "disk_io_write_bytes", "disk_io_write_kb", "disk_io_write_mb", "disk_io_write_gb",
   "disk_io_write_bytes_per_sec", "disk_io_write_kb_per_sec", "disk_io_write_mb_per_sec",
   "disk_io_write_gb_per_sec"]

/-- Every key whose read never touches a rate baseline: the built-in
metric keys other than the fifteen per-second rate metrics, together with
the non-metric attributes reachable through __getitem__. -/
def nonRateKeys : List String :=
  ["cpu_percent", "cpu_percent_plot", "ram_percent", "ram_percent_plot",
   "ram_total", "ram_total_mb", "ram_total_gb",
   "ram_used", "ram_used_mb", "ram_used_gb",
   "cpu_demanding_process", "cpu_demanding_process_cpu_percent",
   "network_bytes_sent", "network_kb_sent", "network_mb_sent",
   "network_bytes_recv", "network_kb_recv", "network_mb_recv", "network_gb_recv",
   "disk_io_read_bytes", "disk_io_read_kb", "disk_io_read_mb", "disk_io_read_gb",
   "disk_io_write_bytes", "disk_io_write_kb", "disk_io_write_mb", "disk_io_write_gb",
   "logger", "is_admin", "load_settings", "clear_cache", "_cache", "_custom_keys",
   "_cpu_percent_plot_settings", "_ram_percent_plot_settings",
   "_cpu_percent_plotter", "_ram_percent_plotter",
   "_network_bytes_sent_last", "_network_bytes_recv_last",
   "_disk_io_read_bytes_last", "_disk_io_write_bytes_last"]

/-- The derived unit-conversion metrics over byte-count totals: base key,
derived key, and the value the derived metric computes from the base value
(the sentinel -1 is passed through unchanged for the disk variants). -/
def unitConversionPairs : List (String × String × (ℤ → Value)) :=
  [("ram_total", "ram_total_mb", fun n => Value.rat ((n : ℚ) / (1024 * 1024))),
   ("ram_total", "ram_total_gb", fun n => Value.rat ((n : ℚ) / (1024 * 1024 * 1024))),
   ("ram_used", "ram_used_mb", fun n => Value.rat ((n : ℚ) / (1024 * 1024))),
   ("ram_used", "ram_used_gb", fun n => Value.rat ((n : ℚ) / (1024 * 1024 * 1024))),
   ("network_bytes_sent", "network_kb_sent", fun n => Value.rat ((n : ℚ) / 1024)),
   ("network_bytes_sent", "network_mb_sent", fun n => Value.rat ((n : ℚ) / (1024 * 1024))),
   ("network_bytes_recv", "network_kb_recv", fun n => Value.rat ((n : ℚ) / 1024)),
   ("network_bytes_recv", "network_mb_recv", fun n => Value.rat ((n : ℚ) / (1024 * 1024))),
   ("network_bytes_recv", "network_gb_recv", fun n => Value.rat ((n : ℚ) / (1024 * 1024 * 1024))),
   ("disk_io_read_bytes", "disk_io_read_kb",
     fun n => if n = -1 then Value.int (-1) else Value.rat ((n : ℚ) / 1024)),
   ("disk_io_read_bytes", "disk_io_read_mb",
     fun n => if n = -1 then Value.int (-1) else Value.rat ((n : ℚ) / (1024 * 1024))),
   ("disk_io_read_bytes", "disk_io_read_gb",
     fun n => if n = -1 then Value.int (-1) else Value.rat ((n : ℚ) / (1024 * 1024 * 1024))),
   ("disk_io_write_bytes", "disk_io_write_kb",
     fun n => if n = -1 then Value.int (-1) else Value.rat ((n : ℚ) / 1024)),
   ("disk_io_write_bytes", "disk_io_write_mb",
     fun n => if n = -1 then Value.int (-1) else Value.rat ((n : ℚ) / (1024 * 1024))),
   ("disk_io_write_bytes", "disk_io_write_gb",
     fun n => if n = -1 then Value.int (-1) else Value.rat ((n : ℚ) / (1024 * 1024 * 1024)))]

/-- The disk metric keys together with the sentinel value each returns when
the OS reports no disk counters: the byte totals and their unit variants
return the Python int -1, the per-second variants the float -1.0. -/
def diskSentinelValues : List (String × Value) :=
  [("disk_io_read_bytes", Value.int (-1)), ("disk_io_read_kb", Value.int (-1)),
   ("disk_io_read_mb", Value.int (-1)), ("disk_io_read_gb", Value.int (-1)),
   ("disk_io_read_bytes_per_sec", Value.rat (-1)),
   ("disk_io_read_kb_per_sec", Value.rat (-1)),
   ("disk_io_read_mb_per_sec", Value.rat (-1)),
   ("disk_io_read_gb_per_sec", Value.rat (-1)),
   ("disk_io_write_bytes", Value.int (-1)), ("disk_io_write_kb", Value.int (-1)),
   ("disk_io_write_mb", Value.int (-1)), ("disk_io_write_gb", Value.int (-1)),
   ("disk_io_write_bytes_per_sec", Value.rat (-1)),
   ("disk_io_write_kb_per_sec", Value.rat (-1)),
   ("disk_io_write_mb_per_sec", Value.rat (-1)),
   ("disk_io_write_gb_per_sec", Value.rat (-1))]

/-- A concrete environment at time 1: cpu 50%, memory (60%, 1000, 500),
network counters (1024, 2048), disk counters (10, 20), and a custom shell
command whose stdout is " a " on its first invocation and "b" afterwards. -/
def envT1 : Env :=
  { now := 1, cpu_percent := 50, vm_percent := 60, vm_total := 1000, vm_used := 500,
    bytes_sent := 1024, bytes_recv := 2048, disk_io := some (10, 20),
    top_process := ("someproc", 99),
    subprocOut := fun _ n => if n = 0 then " a " else "b" }

/-- The same environment one second later. -/
def envT2 : Env := { envT1 with now := 2 }

/-- The same environment but with psutil.disk_io_counters() returning None. -/
def envNoDisk : Env := { envT1 with disk_io := none }

/-- The same environment with larger disk counters. -/
def envDisk100 : Env := { envT1 with disk_io := some (100, 200) }

/-- A freshly started fetcher: empty cache, one custom key mapping "mykey"
to the shell command "cmd", admin rights, no baselines, no plotters. -/
def fetcher0 : LazySystemValueFetcher :=
  { cache := {}, custom_keys := [("mykey", "cmd")], is_admin := true }

/-- A fetcher that already holds a network-sent baseline (time 0, counter 0). -/
def fetcherSent : LazySystemValueFetcher :=
  { fetcher0 with network_bytes_sent_last := some (0, 0) }

/-- A fetcher mid-tick: the disk read rate 7 is already cached for this tick
and the disk read baseline is (time 0, counter 0). -/
def fetcherDiskCached : LazySystemValueFetcher :=
  { fetcher0 with cache := { disk_io_read_bytes_per_sec := some 7 },
                  disk_io_read_bytes_last := some (0, 0) }

/-- A small auto-scaling sparkline state with recorded extremes 1 and 9. -/
def sparkW : SparklineGenerator := ⟨[1, 2, 3], 3, some 1, true, some 9, true⟩

/-- The state sparkW reaches after update 5: the deque advances to [2,3,5],
the extremes stay 1 and 9. -/
def sparkW' : SparklineGenerator := ⟨[2, 3, 5], 3, some 1, true, some 9, true⟩

/-- The state a fixed-range capacity-3 sparkline reaches after the eight
appends 1..8: the deque holds the last three values. -/
def sparkR' : SparklineGenerator := ⟨[6, 7, 8], 3, some 0, false, some 1, false⟩

lemma dequeAppend_eq_drop (n : ℕ) (l : List ℚ) (v : ℚ) :
    dequeAppend n l v = (l ++ [v]).drop (l.length + 1 - n) := by
  unfold dequeAppend
  by_cases h : n < (l ++ [v]).length
  · simp only [if_pos h]
    simp
  · simp only [if_neg h]
    have h0 : l.length + 1 - n = 0 := by
      simp at h
      omega
    rw [h0, List.drop_zero]

lemma dequeAppend_length (n : ℕ) (l : List ℚ) (v : ℚ) (h : l.length = n) :
    (dequeAppend n l v).length = n := by
  rw [dequeAppend_eq_drop, List.length_drop]
  simp [h]

lemma update_history (s : SparklineGenerator) (v : ℚ) (s' : SparklineGenerator)
    (h : s.update v = some s') :
    s'.history = dequeAppend s.max_len s.history v ∧ s'.max_len = s.max_len := by
  unfold SparklineGenerator.update at h
  dsimp only at h
  repeat split at h
  all_goals first
    | (injection h with h; subst h; exact ⟨rfl, rfl⟩)
    | exact absurd h (by simp)

lemma updateAll_history (vs : List ℚ) : ∀ (s s' : SparklineGenerator),
    s.history.length = s.max_len → s.updateAll vs = some s' →
    s'.max_len = s.max_len ∧ s'.history = (s.history ++ vs).drop vs.length := by
  induction vs with
  | nil =>
    intro s s' hlen h
    unfold SparklineGenerator.updateAll at h
    injection h with h
    subst h
    simp
  | cons v vs ih =>
    intro s s' hlen h
    unfold SparklineGenerator.updateAll at h
    cases hu : s.update v with
    | none => rw [hu] at h; exact absurd h (by simp)
    | some s1 =>
      rw [hu] at h
      obtain ⟨hh, hm⟩ := update_history s v s1 hu
      have hlen1 : s1.history.length = s1.max_len := by
        rw [hh, hm, dequeAppend_length s.max_len s.history v hlen]
      obtain ⟨hm', hh'⟩ := ih s1 s' hlen1 h
      refine ⟨by rw [hm', hm], ?_⟩
      rw [hh', hh, dequeAppend_eq_drop, hlen]
      have h1 : s.max_len + 1 - s.max_len = 1 := by omega
      rw [h1]
      have h2 : (1 : ℕ) ≤ (s.history ++ [v]).length := by
        simp
      rw [← List.drop_append_of_le_length h2, List.drop_drop]
      have h3 : s.history ++ [v] ++ vs = s.history ++ (v :: vs) := by
        rw [List.append_assoc]
        rfl
      rw [h3]
      have h4 : (v :: vs).length = 1 + vs.length := by
        simp [Nat.add_comm]
      rw [h4]

lemma foldl_min_append_le (xs : List ℚ) (x m : ℚ) :
    (xs ++ [m]).foldl min x ≤ m := by
  rw [List.foldl_append]
  exact min_le_right _ _

lemma listMin_append_le (l : List ℚ) (m m' : ℚ) (h : listMin (l ++ [m]) = some m') :
    m' ≤ m := by
  cases l with
  | nil =>
    unfold listMin at h
    simp at h
    simp [h]
  | cons x xs =>
    unfold listMin at h
    simp only [List.cons_append] at h
    injection h with h
    subst h
    exact foldl_min_append_le xs x m

lemma foldl_max_append_ge (xs : List ℚ) (x m : ℚ) :
    m ≤ (xs ++ [m]).foldl max x := by
  rw [List.foldl_append]
  exact le_max_right _ _

lemma listMax_append_ge (l : List ℚ) (m m' : ℚ) (h : listMax (l ++ [m]) = some m') :
    m ≤ m' := by
  cases l with
  | nil =>
    unfold listMax at h
    simp at h
    simp [h]
  | cons x xs =>
    unfold listMax at h
    simp only [List.cons_append] at h
    injection h with h
    subst h
    exact foldl_max_append_ge xs x m

lemma update_min_mono (s : SparklineGenerator) (v : ℚ) (s' : SparklineGenerator) (m : ℚ)
    (hauto : s.auto_min_val = true) (hm : s.min_val = some m) (h : s.update v = some s') :
    ∃ m', s'.min_val = some m' ∧ m' ≤ m := by
  unfold SparklineGenerator.update at h
  dsimp only at h
  rw [hauto, hm] at h
  simp only [if_pos rfl] at h
  split at h
  · rename_i a b heq1 heq2
    injection h with h
    subst h
    exact ⟨a, rfl, listMin_append_le _ m a heq1⟩
  · exact absurd h (by simp)

lemma update_max_mono (s : SparklineGenerator) (v : ℚ) (s' : SparklineGenerator) (m : ℚ)
    (hauto : s.auto_max_val = true) (hm : s.max_val = some m) (h : s.update v = some s') :
    ∃ m', s'.max_val = some m' ∧ m ≤ m' := by
  unfold SparklineGenerator.update at h
  dsimp only at h
  rw [hauto, hm] at h
  simp only [if_pos rfl] at h
  split at h
  · rename_i a b heq1 heq2
    injection h with h
    subst h
    exact ⟨b, rfl, listMax_append_ge _ m b heq2⟩
  · exact absurd h (by simp)


/-- The built-in metric keys whose value is identical on repeated reads
within one tick: all of them except the two sparkline metrics (whose
underlying plotter history advances on every read) and the seven
network per-second metrics (whose rate is recomputed on every read). -/
def tickStableKeys : List String :=
  ["cpu_percent", "ram_percent",
   "ram_total", "ram_total_mb", "ram_total_gb",
   "ram_used", "ram_used_mb", "ram_used_gb",
   "cpu_demanding_process", "cpu_demanding_process_cpu_percent",
   "network_bytes_sent", "network_kb_sent", "network_mb_sent",
   "network_bytes_recv", "network_kb_recv", "network_mb_recv", "network_gb_recv",
   "disk_io_read_bytes", "disk_io_read_kb", "disk_io_read_mb", "disk_io_read_gb",
   "disk_io_read_bytes_per_sec", "disk_io_read_kb_per_sec", "disk_io_read_mb_per_sec",
   "disk_io_read_gb_per_sec",
   "disk_io_write_bytes", "disk_io_write_kb", "disk_io_write_mb", "disk_io_write_gb",
   "disk_io_write_bytes_per_sec", "disk_io_write_kb_per_sec", "disk_io_write_mb_per_sec",
   "disk_io_write_gb_per_sec"]

namespace LazySystemValueFetcher

/-- The four rate baselines of a fetcher state, bundled for preservation
statements. -/
def baselinesOf (s : LazySystemValueFetcher) :
    Option (ℚ × ℤ) × Option (ℚ × ℤ) × Option (ℚ × ℤ) × Option (ℚ × ℤ) :=
  (s.network_bytes_sent_last, s.network_bytes_recv_last,
   s.disk_io_read_bytes_last, s.disk_io_write_bytes_last)

/-- The read_bytes figure (or the -1 sentinel) extracted from a
psutil.disk_io_counters() result. -/
def diskReadVal : Option (ℤ × ℤ) → ℤ
  | none => -1
  | some c => c.1

/-- The write_bytes figure (or the -1 sentinel) extracted from a
psutil.disk_io_counters() result. -/
def diskWriteVal : Option (ℤ × ℤ) → ℤ
  | none => -1
  | some c => c.2

lemma ensure_cpu_percent_of_cached (env : Env) (s : LazySystemValueFetcher)
    (v : ℚ) (h : s.cache.cpu_percent = some v) : ensure_cpu_percent env s = (v, s) := by
  unfold ensure_cpu_percent
  simp [h]

lemma ensure_cpu_percent_cache (env : Env) (s : LazySystemValueFetcher) :
    ((ensure_cpu_percent env s).2).cache.cpu_percent = some (ensure_cpu_percent env s).1 := by
  unfold ensure_cpu_percent
  cases h : s.cache.cpu_percent <;> simp [h]

lemma ensure_cpu_percent_baselines (env : Env) (s : LazySystemValueFetcher) :
    baselinesOf (ensure_cpu_percent env s).2 = baselinesOf s := by
  unfold ensure_cpu_percent
  cases h : s.cache.cpu_percent <;> simp [h, baselinesOf]

lemma ensure_virtual_memory_of_cached (env : Env) (s : LazySystemValueFetcher)
    (v : ℚ × ℤ × ℤ) (h : s.cache.virtual_memory = some v) :
    ensure_virtual_memory env s = (v, s) := by
  unfold ensure_virtual_memory
  simp [h]

lemma ensure_virtual_memory_cache (env : Env) (s : LazySystemValueFetcher) :
    ((ensure_virtual_memory env s).2).cache.virtual_memory =
      some (ensure_virtual_memory env s).1 := by
  unfold ensure_virtual_memory
  cases h : s.cache.virtual_memory <;> simp [h]

lemma ensure_virtual_memory_baselines (env : Env) (s : LazySystemValueFetcher) :
    baselinesOf (ensure_virtual_memory env s).2 = baselinesOf s := by
  unfold ensure_virtual_memory
  cases h : s.cache.virtual_memory <;> simp [h, baselinesOf]

lemma ensure_net_io_of_cached (env : Env) (s : LazySystemValueFetcher)
    (v : ℤ × ℤ) (h : s.cache.net_io_counters = some v) : ensure_net_io env s = (v, s) := by
  unfold ensure_net_io
  simp [h]

lemma ensure_net_io_cache (env : Env) (s : LazySystemValueFetcher) :
    ((ensure_net_io env s).2).cache.net_io_counters = some (ensure_net_io env s).1 := by
  unfold ensure_net_io
  cases h : s.cache.net_io_counters <;> simp [h]

lemma ensure_net_io_baselines (env : Env) (s : LazySystemValueFetcher) :
    baselinesOf (ensure_net_io env s).2 = baselinesOf s := by
  unfold ensure_net_io
  cases h : s.cache.net_io_counters <;> simp [h, baselinesOf]

lemma ensure_process_iter_of_cached (env : Env) (s : LazySystemValueFetcher)
    (v : String × ℚ) (h : s.cache.process_iter = some v) :
    ensure_process_iter env s = (v, s) := by
  unfold ensure_process_iter
  simp [h]

lemma ensure_process_iter_cache (env : Env) (s : LazySystemValueFetcher) :
    ((ensure_process_iter env s).2).cache.process_iter =
      some (ensure_process_iter env s).1 := by
  unfold ensure_process_iter
  cases h : s.cache.process_iter <;> simp [h]

lemma ensure_process_iter_admin (env : Env) (s : LazySystemValueFetcher) :
    ((ensure_process_iter env s).2).is_admin = s.is_admin := by
  unfold ensure_process_iter
  cases h : s.cache.process_iter <;> simp [h]

lemma ensure_process_iter_baselines (env : Env) (s : LazySystemValueFetcher) :
    baselinesOf (ensure_process_iter env s).2 = baselinesOf s := by
  unfold ensure_process_iter
  cases h : s.cache.process_iter <;> simp [h, baselinesOf]

lemma ensure_disk_io_of_cached (env : Env) (s : LazySystemValueFetcher)
    (d : Option (ℤ × ℤ)) (h : s.cache.disk_io_counters = some d) :
    ensure_disk_io env s = (d, s) := by
  unfold ensure_disk_io
  simp [h]

lemma ensure_disk_io_cache (env : Env) (s : LazySystemValueFetcher) :
    ((ensure_disk_io env s).2).cache.disk_io_counters = some (ensure_disk_io env s).1 := by
  unfold ensure_disk_io
  cases h : s.cache.disk_io_counters <;> simp [h]

lemma disk_io_read_bytesZ_of_cached (env : Env) (u : LazySystemValueFetcher)
    (d : Option (ℤ × ℤ)) (h : u.cache.disk_io_counters = some d) :
    disk_io_read_bytesZ env u = (diskReadVal d, u) := by
  unfold disk_io_read_bytesZ diskReadVal
  rw [ensure_disk_io_of_cached env u d h]
  cases d <;> simp

lemma disk_io_write_bytesZ_of_cached (env : Env) (u : LazySystemValueFetcher)
    (d : Option (ℤ × ℤ)) (h : u.cache.disk_io_counters = some d) :
    disk_io_write_bytesZ env u = (diskWriteVal d, u) := by
  unfold disk_io_write_bytesZ diskWriteVal
  rw [ensure_disk_io_of_cached env u d h]
  cases d <;> simp

lemma disk_io_read_bytesZ_spec (env : Env) (s : LazySystemValueFetcher) :
    ∃ d : Option (ℤ × ℤ),
      (disk_io_read_bytesZ env s).1 = diskReadVal d ∧
      (disk_io_read_bytesZ env s).2 =
        { s with cache := { s.cache with disk_io_counters := some d } } := by
  unfold disk_io_read_bytesZ ensure_disk_io diskReadVal
  cases h : s.cache.disk_io_counters with
  | some d =>
    refine ⟨d, ?_, ?_⟩
    · cases d <;> simp [h]
    · cases d <;> · simp [h]
                    cases s with
                    | mk cache ck ia a b c dd e f g w => cases cache; simp_all
  | none =>
    refine ⟨env.disk_io, ?_, ?_⟩
    · cases hd : env.disk_io <;> simp [h, hd]
    · cases hd : env.disk_io <;> simp [h, hd]

lemma disk_io_write_bytesZ_spec (env : Env) (s : LazySystemValueFetcher) :
    ∃ d : Option (ℤ × ℤ),
      (disk_io_write_bytesZ env s).1 = diskWriteVal d ∧
      (disk_io_write_bytesZ env s).2 =
        { s with cache := { s.cache with disk_io_counters := some d } } := by
  unfold disk_io_write_bytesZ ensure_disk_io diskWriteVal
  cases h : s.cache.disk_io_counters with
  | some d =>
    refine ⟨d, ?_, ?_⟩
    · cases d <;> simp [h]
    · cases d <;> · simp [h]
                    cases s with
                    | mk cache ck ia a b c dd e f g w => cases cache; simp_all
  | none =>
    refine ⟨env.disk_io, ?_, ?_⟩
    · cases hd : env.disk_io <;> simp [h, hd]
    · cases hd : env.disk_io <;> simp [h, hd]

lemma cachedDiskCounters_of (u : LazySystemValueFetcher) (c : ℤ × ℤ)
    (h : u.cache.disk_io_counters = some (some c)) : cachedDiskCounters u = c := by
  unfold cachedDiskCounters
  simp [h]

lemma cpu_percent_stable (env1 env2 : Env) (s : LazySystemValueFetcher) :
    (cpu_percent env2 (cpu_percent env1 s).2).1 = (cpu_percent env1 s).1 := by
  unfold cpu_percent cpu_percentQ
  rcases h : ensure_cpu_percent env1 s with ⟨v, t⟩
  have hc := ensure_cpu_percent_cache env1 s
  rw [h] at hc
  simp only [h]
  rw [ensure_cpu_percent_of_cached env2 t v hc]

lemma ram_percent_stable (env1 env2 : Env) (s : LazySystemValueFetcher) :
    (ram_percent env2 (ram_percent env1 s).2).1 = (ram_percent env1 s).1 := by
  unfold ram_percent ram_percentQ
  rcases h : ensure_virtual_memory env1 s with ⟨v, t⟩
  have hc := ensure_virtual_memory_cache env1 s
  rw [h] at hc
  simp only [h]
  rw [ensure_virtual_memory_of_cached env2 t v hc]

lemma ram_total_stable (env1 env2 : Env) (s : LazySystemValueFetcher) :
    (ram_total env2 (ram_total env1 s).2).1 = (ram_total env1 s).1 := by
  unfold ram_total ram_totalZ
  rcases h : ensure_virtual_memory env1 s with ⟨v, t⟩
  have hc := ensure_virtual_memory_cache env1 s
  rw [h] at hc
  simp only [h]
  rw [ensure_virtual_memory_of_cached env2 t v hc]

lemma ram_total_mb_stable (env1 env2 : Env) (s : LazySystemValueFetcher) :
    (ram_total_mb env2 (ram_total_mb env1 s).2).1 = (ram_total_mb env1 s).1 := by
  unfold ram_total_mb ram_totalZ
  rcases h : ensure_virtual_memory env1 s with ⟨v, t⟩
  have hc := ensure_virtual_memory_cache env1 s
  rw [h] at hc
  simp only [h]
  rw [ensure_virtual_memory_of_cached env2 t v hc]

lemma ram_total_gb_stable (env1 env2 : Env) (s : LazySystemValueFetcher) :
    (ram_total_gb env2 (ram_total_gb env1 s).2).1 = (ram_total_gb env1 s).1 := by
  unfold ram_total_gb ram_totalZ
  rcases h : ensure_virtual_memory env1 s with ⟨v, t⟩
  have hc := ensure_virtual_memory_cache env1 s
  rw [h] at hc
  simp only [h]
  rw [ensure_virtual_memory_of_cached env2 t v hc]

lemma ram_used_stable (env1 env2 : Env) (s : LazySystemValueFetcher) :
    (ram_used env2 (ram_used env1 s).2).1 = (ram_used env1 s).1 := by
  unfold ram_used ram_usedZ
  rcases h : ensure_virtual_memory env1 s with ⟨v, t⟩
  have hc := ensure_virtual_memory_cache env1 s
  rw [h] at hc
  simp only [h]
  rw [ensure_virtual_memory_of_cached env2 t v hc]

lemma ram_used_mb_stable (env1 env2 : Env) (s : LazySystemValueFetcher) :
    (ram_used_mb env2 (ram_used_mb env1 s).2).1 = (ram_used_mb env1 s).1 := by
  unfold ram_used_mb ram_usedZ
  rcases h : ensure_virtual_memory env1 s with ⟨v, t⟩
  have hc := ensure_virtual_memory_cache env1 s
  rw [h] at hc
  simp only [h]
  rw [ensure_virtual_memory_of_cached env2 t v hc]

lemma ram_used_gb_stable (env1 env2 : Env) (s : LazySystemValueFetcher) :
    (ram_used_gb env2 (ram_used_gb env1 s).2).1 = (ram_used_gb env1 s).1 := by
  unfold ram_used_gb ram_usedZ
  rcases h : ensure_virtual_memory env1 s with ⟨v, t⟩
  have hc := ensure_virtual_memory_cache env1 s
  rw [h] at hc
  simp only [h]
  rw [ensure_virtual_memory_of_cached env2 t v hc]

lemma cpu_demanding_process_stable (env1 env2 : Env) (s : LazySystemValueFetcher) :
    (cpu_demanding_process env2 (cpu_demanding_process env1 s).2).1 =
      (cpu_demanding_process env1 s).1 := by
  unfold cpu_demanding_process
  by_cases ha : s.is_admin
  · rcases h : ensure_process_iter env1 s with ⟨v, t⟩
    have hc := ensure_process_iter_cache env1 s
    have hadm := ensure_process_iter_admin env1 s
    rw [h] at hc hadm
    simp only [ha, Bool.not_true, if_neg, h]
    simp only at hc hadm
    simp [ha, hadm, ensure_process_iter_of_cached env2 t v hc]
  · simp [Bool.not_eq_true] at ha
    simp [ha]

lemma cpu_demanding_process_cpu_percent_stable (env1 env2 : Env) (s : LazySystemValueFetcher) :
    (cpu_demanding_process_cpu_percent env2 (cpu_demanding_process_cpu_percent env1 s).2).1 =
      (cpu_demanding_process_cpu_percent env1 s).1 := by
  unfold cpu_demanding_process_cpu_percent
  by_cases ha : s.is_admin
  · rcases h : ensure_process_iter env1 s with ⟨v, t⟩
    have hc := ensure_process_iter_cache env1 s
    have hadm := ensure_process_iter_admin env1 s
    rw [h] at hc hadm
    simp only [ha, Bool.not_true, if_neg, h]
    simp only at hc hadm
    simp [ha, hadm, ensure_process_iter_of_cached env2 t v hc]
  · simp [Bool.not_eq_true] at ha
    simp [ha]

lemma network_bytes_sent_stable (env1 env2 : Env) (s : LazySystemValueFetcher) :
    (network_bytes_sent env2 (network_bytes_sent env1 s).2).1 =
      (network_bytes_sent env1 s).1 := by
  unfold network_bytes_sent network_bytes_sentZ
  rcases h : ensure_net_io env1 s with ⟨v, t⟩
  have hc := ensure_net_io_cache env1 s
  rw [h] at hc
  simp only [h]
  rw [ensure_net_io_of_cached env2 t v hc]

lemma network_kb_sent_stable (env1 env2 : Env) (s : LazySystemValueFetcher) :
    (network_kb_sent env2 (network_kb_sent env1 s).2).1 = (network_kb_sent env1 s).1 := by
  unfold network_kb_sent network_bytes_sentZ
  rcases h : ensure_net_io env1 s with ⟨v, t⟩
  have hc := ensure_net_io_cache env1 s
  rw [h] at hc
  simp only [h]
  rw [ensure_net_io_of_cached env2 t v hc]

lemma network_mb_sent_stable (env1 env2 : Env) (s : LazySystemValueFetcher) :
    (network_mb_sent env2 (network_mb_sent env1 s).2).1 = (network_mb_sent env1 s).1 := by
  unfold network_mb_sent network_bytes_sentZ
  rcases h : ensure_net_io env1 s with ⟨v, t⟩
  have hc := ensure_net_io_cache env1 s
  rw [h] at hc
  simp only [h]
  rw [ensure_net_io_of_cached env2 t v hc]

lemma network_bytes_recv_stable (env1 env2 : Env) (s : LazySystemValueFetcher) :
    (network_bytes_recv env2 (network_bytes_recv env1 s).2).1 =
      (network_bytes_recv env1 s).1 := by
  unfold network_bytes_recv network_bytes_recvZ
  rcases h : ensure_net_io env1 s with ⟨v, t⟩
  have hc := ensure_net_io_cache env1 s
  rw [h] at hc
  simp only [h]
  rw [ensure_net_io_of_cached env2 t v hc]

lemma network_kb_recv_stable (env1 env2 : Env) (s : LazySystemValueFetcher) :
    (network_kb_recv env2 (network_kb_recv env1 s).2).1 = (network_kb_recv env1 s).1 := by
  unfold network_kb_recv network_bytes_recvZ
  rcases h : ensure_net_io env1 s with ⟨v, t⟩
  have hc := ensure_net_io_cache env1 s
  rw [h] at hc
  simp only [h]
  rw [ensure_net_io_of_cached env2 t v hc]

lemma network_mb_recv_stable (env1 env2 : Env) (s : LazySystemValueFetcher) :
    (network_mb_recv env2 (network_mb_recv env1 s).2).1 = (network_mb_recv env1 s).1 := by
  unfold network_mb_recv network_bytes_recvZ
  rcases h : ensure_net_io env1 s with ⟨v, t⟩
  have hc := ensure_net_io_cache env1 s
  rw [h] at hc
  simp only [h]
  rw [ensure_net_io_of_cached env2 t v hc]

lemma network_gb_recv_stable (env1 env2 : Env) (s : LazySystemValueFetcher) :
    (network_gb_recv env2 (network_gb_recv env1 s).2).1 = (network_gb_recv env1 s).1 := by
  unfold network_gb_recv network_bytes_recvZ
  rcases h : ensure_net_io env1 s with ⟨v, t⟩
  have hc := ensure_net_io_cache env1 s
  rw [h] at hc
  simp only [h]
  rw [ensure_net_io_of_cached env2 t v hc]

lemma disk_io_read_bytes_stable (env1 env2 : Env) (s : LazySystemValueFetcher) :
    (disk_io_read_bytes env2 (disk_io_read_bytes env1 s).2).1 =
      (disk_io_read_bytes env1 s).1 := by
  unfold disk_io_read_bytes
  obtain ⟨d, hv, hst⟩ := disk_io_read_bytesZ_spec env1 s
  rcases hb : disk_io_read_bytesZ env1 s with ⟨b, t⟩
  rw [hb] at hv hst
  simp only at hv hst
  subst hv
  have hcd : t.cache.disk_io_counters = some d := by rw [hst]
  simp [disk_io_read_bytesZ_of_cached env2 t d hcd]

lemma disk_io_read_kb_stable (env1 env2 : Env) (s : LazySystemValueFetcher) :
    (disk_io_read_kb env2 (disk_io_read_kb env1 s).2).1 = (disk_io_read_kb env1 s).1 := by
  unfold disk_io_read_kb
  obtain ⟨d, hv, hst⟩ := disk_io_read_bytesZ_spec env1 s
  rcases hb : disk_io_read_bytesZ env1 s with ⟨b, t⟩
  rw [hb] at hv hst
  simp only at hv hst
  subst hv
  have hcd : t.cache.disk_io_counters = some d := by rw [hst]
  by_cases hm : diskReadVal d = -1
  · simp [hm, disk_io_read_bytesZ_of_cached env2 t d hcd]
  · simp only [if_neg hm]
    simp [hm, disk_io_read_bytesZ_of_cached env1 t d hcd,
      disk_io_read_bytesZ_of_cached env2 t d hcd]

lemma disk_io_read_mb_stable (env1 env2 : Env) (s : LazySystemValueFetcher) :
    (disk_io_read_mb env2 (disk_io_read_mb env1 s).2).1 = (disk_io_read_mb env1 s).1 := by
  unfold disk_io_read_mb
  obtain ⟨d, hv, hst⟩ := disk_io_read_bytesZ_spec env1 s
  rcases hb : disk_io_read_bytesZ env1 s with ⟨b, t⟩
  rw [hb] at hv hst
  simp only at hv hst
  subst hv
  have hcd : t.cache.disk_io_counters = some d := by rw [hst]
  by_cases hm : diskReadVal d = -1
  · simp [hm, disk_io_read_bytesZ_of_cached env2 t d hcd]
  · simp only [if_neg hm]
    simp [hm, disk_io_read_bytesZ_of_cached env1 t d hcd,
      disk_io_read_bytesZ_of_cached env2 t d hcd]

lemma disk_io_read_gb_stable (env1 env2 : Env) (s : LazySystemValueFetcher) :
    (disk_io_read_gb env2 (disk_io_read_gb env1 s).2).1 = (disk_io_read_gb env1 s).1 := by
  unfold disk_io_read_gb
  obtain ⟨d, hv, hst⟩ := disk_io_read_bytesZ_spec env1 s
  rcases hb : disk_io_read_bytesZ env1 s with ⟨b, t⟩
  rw [hb] at hv hst
  simp only at hv hst
  subst hv
  have hcd : t.cache.disk_io_counters = some d := by rw [hst]
  by_cases hm : diskReadVal d = -1
  · simp [hm, disk_io_read_bytesZ_of_cached env2 t d hcd]
  · simp only [if_neg hm]
    simp [hm, disk_io_read_bytesZ_of_cached env1 t d hcd,
      disk_io_read_bytesZ_of_cached env2 t d hcd]

lemma disk_io_write_bytes_stable (env1 env2 : Env) (s : LazySystemValueFetcher) :
    (disk_io_write_bytes env2 (disk_io_write_bytes env1 s).2).1 =
      (disk_io_write_bytes env1 s).1 := by
  unfold disk_io_write_bytes
  obtain ⟨d, hv, hst⟩ := disk_io_write_bytesZ_spec env1 s
  rcases hb : disk_io_write_bytesZ env1 s with ⟨b, t⟩
  rw [hb] at hv hst
  simp only at hv hst
  subst hv
  have hcd : t.cache.disk_io_counters = some d := by rw [hst]
  simp [disk_io_write_bytesZ_of_cached env2 t d hcd]

lemma disk_io_write_kb_stable (env1 env2 : Env) (s : LazySystemValueFetcher) :
    (disk_io_write_kb env2 (disk_io_write_kb env1 s).2).1 = (disk_io_write_kb env1 s).1 := by
  unfold disk_io_write_kb
  obtain ⟨d, hv, hst⟩ := disk_io_write_bytesZ_spec env1 s
  rcases hb : disk_io_write_bytesZ env1 s with ⟨b, t⟩
  rw [hb] at hv hst
  simp only at hv hst
  subst hv
  have hcd : t.cache.disk_io_counters = some d := by rw [hst]
  by_cases hm : diskWriteVal d = -1
  · simp [hm, disk_io_write_bytesZ_of_cached env2 t d hcd]
  · simp only [if_neg hm]
    simp [hm, disk_io_write_bytesZ_of_cached env1 t d hcd,
      disk_io_write_bytesZ_of_cached env2 t d hcd]

lemma disk_io_write_mb_stable (env1 env2 : Env) (s : LazySystemValueFetcher) :
    (disk_io_write_mb env2 (disk_io_write_mb env1 s).2).1 = (disk_io_write_mb env1 s).1 := by
  unfold disk_io_write_mb
  obtain ⟨d, hv, hst⟩ := disk_io_write_bytesZ_spec env1 s
  rcases hb : disk_io_write_bytesZ env1 s with ⟨b, t⟩
  rw [hb] at hv hst
  simp only at hv hst
  subst hv
  have hcd : t.cache.disk_io_counters = some d := by rw [hst]
  by_cases hm : diskWriteVal d = -1
  · simp [hm, disk_io_write_bytesZ_of_cached env2 t d hcd]
  · simp only [if_neg hm]
    simp [hm, disk_io_write_bytesZ_of_cached env1 t d hcd,
      disk_io_write_bytesZ_of_cached env2 t d hcd]

lemma disk_io_write_gb_stable (env1 env2 : Env) (s : LazySystemValueFetcher) :
    (disk_io_write_gb env2 (disk_io_write_gb env1 s).2).1 = (disk_io_write_gb env1 s).1 := by
  unfold disk_io_write_gb
  obtain ⟨d, hv, hst⟩ := disk_io_write_bytesZ_spec env1 s
  rcases hb : disk_io_write_bytesZ env1 s with ⟨b, t⟩
  rw [hb] at hv hst
  simp only at hv hst
  subst hv
  have hcd : t.cache.disk_io_counters = some d := by rw [hst]
  by_cases hm : diskWriteVal d = -1
  · simp [hm, disk_io_write_bytesZ_of_cached env2 t d hcd]
  · simp only [if_neg hm]
    simp [hm, disk_io_write_bytesZ_of_cached env1 t d hcd,
      disk_io_write_bytesZ_of_cached env2 t d hcd]

lemma disk_io_read_bytes_per_secQ_stable (env1 env2 : Env) (s : LazySystemValueFetcher) :
    (disk_io_read_bytes_per_secQ env2 (disk_io_read_bytes_per_secQ env1 s).2).1 =
      (disk_io_read_bytes_per_secQ env1 s).1 := by
  unfold disk_io_read_bytes_per_secQ
  cases hr : s.cache.disk_io_read_bytes_per_sec with
  | some r => simp [hr]
  | none =>
    simp only [hr]
    obtain ⟨d, hv, hst⟩ := disk_io_read_bytesZ_spec env1 s
    rcases hb : disk_io_read_bytesZ env1 s with ⟨b, t⟩
    rw [hb] at hv hst
    simp only at hv hst
    subst hv
    have hcd : t.cache.disk_io_counters = some d := by rw [hst]
    have hrt : t.cache.disk_io_read_bytes_per_sec = none := by rw [hst]; exact hr
    by_cases hm : diskReadVal d = -1
    · simp only [hm, if_pos rfl]
      simp [hrt, disk_io_read_bytesZ_of_cached env2 t d hcd, hm]
    · simp only [if_neg hm]
      cases hl : t.disk_io_read_bytes_last with
      | none =>
        simp only [hl]
        cases d with
        | none => simp [diskReadVal] at hm
        | some c =>
          have hcc := cachedDiskCounters_of t c hcd
          have hm' : c.1 ≠ -1 := by simpa [diskReadVal] using hm
          simp only [hrt, hcc]
          simp [diskReadVal, hm',
            disk_io_read_bytesZ_of_cached env2
              { t with disk_io_read_bytes_last := some (env1.now, c.1) } (some c) hcd]
      | some last =>
        simp only [hl]

lemma disk_io_write_bytes_per_secQ_stable (env1 env2 : Env) (s : LazySystemValueFetcher) :
    (disk_io_write_bytes_per_secQ env2 (disk_io_write_bytes_per_secQ env1 s).2).1 =
      (disk_io_write_bytes_per_secQ env1 s).1 := by
  unfold disk_io_write_bytes_per_secQ
  cases hr : s.cache.disk_io_write_bytes_per_sec with
  | some r => simp [hr]
  | none =>
    simp only [hr]
    obtain ⟨d, hv, hst⟩ := disk_io_write_bytesZ_spec env1 s
    rcases hb : disk_io_write_bytesZ env1 s with ⟨b, t⟩
    rw [hb] at hv hst
    simp only at hv hst
    subst hv
    have hcd : t.cache.disk_io_counters = some d := by rw [hst]
    have hrt : t.cache.disk_io_write_bytes_per_sec = none := by rw [hst]; exact hr
    by_cases hm : diskWriteVal d = -1
    · simp only [hm, if_pos rfl]
      simp [hrt, disk_io_write_bytesZ_of_cached env2 t d hcd, hm]
    · simp only [if_neg hm]
      cases hl : t.disk_io_write_bytes_last with
      | none =>
        simp only [hl]
        cases d with
        | none => simp [diskWriteVal] at hm
        | some c =>
          have hcc := cachedDiskCounters_of t c hcd
          have hm' : c.2 ≠ -1 := by simpa [diskWriteVal] using hm
          simp only [hrt, hcc]
          simp [diskWriteVal, hm',
            disk_io_write_bytesZ_of_cached env2
              { t with disk_io_write_bytes_last := some (env1.now, c.2) } (some c) hcd]
      | some last =>
        simp only [hl]

lemma disk_io_read_bytes_per_sec_stable (env1 env2 : Env) (s : LazySystemValueFetcher) :
    (disk_io_read_bytes_per_sec env2 (disk_io_read_bytes_per_sec env1 s).2).1 =
      (disk_io_read_bytes_per_sec env1 s).1 := by
  unfold disk_io_read_bytes_per_sec
  rcases h1 : disk_io_read_bytes_per_secQ env1 s with ⟨r1, t1⟩
  have hs := disk_io_read_bytes_per_secQ_stable env1 env2 s
  rw [h1] at hs
  simp only at hs
  rcases h2 : disk_io_read_bytes_per_secQ env2 t1 with ⟨r2, t2⟩
  rw [h2] at hs
  simp only at hs
  simp [hs]

lemma disk_io_write_bytes_per_sec_stable (env1 env2 : Env) (s : LazySystemValueFetcher) :
    (disk_io_write_bytes_per_sec env2 (disk_io_write_bytes_per_sec env1 s).2).1 =
      (disk_io_write_bytes_per_sec env1 s).1 := by
  unfold disk_io_write_bytes_per_sec
  rcases h1 : disk_io_write_bytes_per_secQ env1 s with ⟨r1, t1⟩
  have hs := disk_io_write_bytes_per_secQ_stable env1 env2 s
  rw [h1] at hs
  simp only at hs
  rcases h2 : disk_io_write_bytes_per_secQ env2 t1 with ⟨r2, t2⟩
  rw [h2] at hs
  simp only at hs
  simp [hs]

lemma disk_io_read_kb_per_sec_stable (env1 env2 : Env) (s : LazySystemValueFetcher) :
    (disk_io_read_kb_per_sec env2 (disk_io_read_kb_per_sec env1 s).2).1 =
      (disk_io_read_kb_per_sec env1 s).1 := by
  unfold disk_io_read_kb_per_sec
  rcases h1 : disk_io_read_bytes_per_secQ env1 s with ⟨r1, t1⟩
  by_cases hm : r1 = -1
  · subst hm
    have hs := disk_io_read_bytes_per_secQ_stable env1 env2 s
    rw [h1] at hs
    simp only at hs
    rcases h2 : disk_io_read_bytes_per_secQ env2 t1 with ⟨r2, t2⟩
    rw [h2] at hs
    simp only at hs
    simp [h2, hs]
  · have hsa := disk_io_read_bytes_per_secQ_stable env1 env1 s
    rw [h1] at hsa
    simp only at hsa
    rcases h2 : disk_io_read_bytes_per_secQ env1 t1 with ⟨r2, t2⟩
    rw [h2] at hsa
    simp only at hsa
    have hsb := disk_io_read_bytes_per_secQ_stable env1 env2 t1
    rw [h2] at hsb
    simp only at hsb
    rcases h3 : disk_io_read_bytes_per_secQ env2 t2 with ⟨r3, t3⟩
    rw [h3] at hsb
    simp only at hsb
    have hsc := disk_io_read_bytes_per_secQ_stable env2 env2 t2
    rw [h3] at hsc
    simp only at hsc
    rcases h4 : disk_io_read_bytes_per_secQ env2 t3 with ⟨r4, t4⟩
    rw [h4] at hsc
    simp only at hsc
    subst hsa
    subst hsb
    subst hsc
    simp [hm, h2, h3, h4]

lemma disk_io_read_mb_per_sec_stable (env1 env2 : Env) (s : LazySystemValueFetcher) :
    (disk_io_read_mb_per_sec env2 (disk_io_read_mb_per_sec env1 s).2).1 =
      (disk_io_read_mb_per_sec env1 s).1 := by
  unfold disk_io_read_mb_per_sec
  rcases h1 : disk_io_read_bytes_per_secQ env1 s with ⟨r1, t1⟩
  by_cases hm : r1 = -1
  · subst hm
    have hs := disk_io_read_bytes_per_secQ_stable env1 env2 s
    rw [h1] at hs
    simp only at hs
    rcases h2 : disk_io_read_bytes_per_secQ env2 t1 with ⟨r2, t2⟩
    rw [h2] at hs
    simp only at hs
    simp [h2, hs]
  · have hsa := disk_io_read_bytes_per_secQ_stable env1 env1 s
    rw [h1] at hsa
    simp only at hsa
    rcases h2 : disk_io_read_bytes_per_secQ env1 t1 with ⟨r2, t2⟩
    rw [h2] at hsa
    simp only at hsa
    have hsb := disk_io_read_bytes_per_secQ_stable env1 env2 t1
    rw [h2] at hsb
    simp only at hsb
    rcases h3 : disk_io_read_bytes_per_secQ env2 t2 with ⟨r3, t3⟩
    rw [h3] at hsb
    simp only at hsb
    have hsc := disk_io_read_bytes_per_secQ_stable env2 env2 t2
    rw [h3] at hsc
    simp only at hsc
    rcases h4 : disk_io_read_bytes_per_secQ env2 t3 with ⟨r4, t4⟩
    rw [h4] at hsc
    simp only at hsc
    subst hsa
    subst hsb
    subst hsc
    simp [hm, h2, h3, h4]

lemma disk_io_read_gb_per_sec_stable (env1 env2 : Env) (s : LazySystemValueFetcher) :
    (disk_io_read_gb_per_sec env2 (disk_io_read_gb_per_sec env1 s).2).1 =
      (disk_io_read_gb_per_sec env1 s).1 := by
  unfold disk_io_read_gb_per_sec
  rcases h1 : disk_io_read_bytes_per_secQ env1 s with ⟨r1, t1⟩
  by_cases hm : r1 = -1
  · subst hm
    have hs := disk_io_read_bytes_per_secQ_stable env1 env2 s
    rw [h1] at hs
    simp only at hs
    rcases h2 : disk_io_read_bytes_per_secQ env2 t1 with ⟨r2, t2⟩
    rw [h2] at hs
    simp only at hs
    simp [h2, hs]
  · have hsa := disk_io_read_bytes_per_secQ_stable env1 env1 s
    rw [h1] at hsa
    simp only at hsa
    rcases h2 : disk_io_read_bytes_per_secQ env1 t1 with ⟨r2, t2⟩
    rw [h2] at hsa
    simp only at hsa
    have hsb := disk_io_read_bytes_per_secQ_stable env1 env2 t1
    rw [h2] at hsb
    simp only at hsb
    rcases h3 : disk_io_read_bytes_per_secQ env2 t2 with ⟨r3, t3⟩
    rw [h3] at hsb
    simp only at hsb
    have hsc := disk_io_read_bytes_per_secQ_stable env2 env2 t2
    rw [h3] at hsc
    simp only at hsc
    rcases h4 : disk_io_read_bytes_per_secQ env2 t3 with ⟨r4, t4⟩
    rw [h4] at hsc
    simp only at hsc
    subst hsa
    subst hsb
    subst hsc
    simp [hm, h2, h3, h4]

lemma disk_io_write_kb_per_sec_stable (env1 env2 : Env) (s : LazySystemValueFetcher) :
    (disk_io_write_kb_per_sec env2 (disk_io_write_kb_per_sec env1 s).2).1 =
      (disk_io_write_kb_per_sec env1 s).1 := by
  unfold disk_io_write_kb_per_sec
  rcases h1 : disk_io_write_bytes_per_secQ env1 s with ⟨r1, t1⟩
  by_cases hm : r1 = -1
  · subst hm
    have hs := disk_io_write_bytes_per_secQ_stable env1 env2 s
    rw [h1] at hs
    simp only at hs
    rcases h2 : disk_io_write_bytes_per_secQ env2 t1 with ⟨r2, t2⟩
    rw [h2] at hs
    simp only at hs
    simp [h2, hs]
  · have hsa := disk_io_write_bytes_per_secQ_stable env1 env1 s
    rw [h1] at hsa
    simp only at hsa
    rcases h2 : disk_io_write_bytes_per_secQ env1 t1 with ⟨r2, t2⟩
    rw [h2] at hsa
    simp only at hsa
    have hsb := disk_io_write_bytes_per_secQ_stable env1 env2 t1
    rw [h2] at hsb
    simp only at hsb
    rcases h3 : disk_io_write_bytes_per_secQ env2 t2 with ⟨r3, t3⟩
    rw [h3] at hsb
    simp only at hsb
    have hsc := disk_io_write_bytes_per_secQ_stable env2 env2 t2
    rw [h3] at hsc
    simp only at hsc
    rcases h4 : disk_io_write_bytes_per_secQ env2 t3 with ⟨r4, t4⟩
    rw [h4] at hsc
    simp only at hsc
    subst hsa
    subst hsb
    subst hsc
    simp [hm, h2, h3, h4]

lemma disk_io_write_mb_per_sec_stable (env1 env2 : Env) (s : LazySystemValueFetcher) :
    (disk_io_write_mb_per_sec env2 (disk_io_write_mb_per_sec env1 s).2).1 =
      (disk_io_write_mb_per_sec env1 s).1 := by
  unfold disk_io_write_mb_per_sec
  rcases h1 : disk_io_write_bytes_per_secQ env1 s with ⟨r1, t1⟩
  by_cases hm : r1 = -1
  · subst hm
    have hs := disk_io_write_bytes_per_secQ_stable env1 env2 s
    rw [h1] at hs
    simp only at hs
    rcases h2 : disk_io_write_bytes_per_secQ env2 t1 with ⟨r2, t2⟩
    rw [h2] at hs
    simp only at hs
    simp [h2, hs]
  · have hsa := disk_io_write_bytes_per_secQ_stable env1 env1 s
    rw [h1] at hsa
    simp only at hsa
    rcases h2 : disk_io_write_bytes_per_secQ env1 t1 with ⟨r2, t2⟩
    rw [h2] at hsa
    simp only at hsa
    have hsb := disk_io_write_bytes_per_secQ_stable env1 env2 t1
    rw [h2] at hsb
    simp only at hsb
    rcases h3 : disk_io_write_bytes_per_secQ env2 t2 with ⟨r3, t3⟩
    rw [h3] at hsb
    simp only at hsb
    have hsc := disk_io_write_bytes_per_secQ_stable env2 env2 t2
    rw [h3] at hsc
    simp only at hsc
    rcases h4 : disk_io_write_bytes_per_secQ env2 t3 with ⟨r4, t4⟩
    rw [h4] at hsc
    simp only at hsc
    subst hsa
    subst hsb
    subst hsc
    simp [hm, h2, h3, h4]

lemma disk_io_write_gb_per_sec_stable (env1 env2 : Env) (s : LazySystemValueFetcher) :
    (disk_io_write_gb_per_sec env2 (disk_io_write_gb_per_sec env1 s).2).1 =
      (disk_io_write_gb_per_sec env1 s).1 := by
  unfold disk_io_write_gb_per_sec
  rcases h1 : disk_io_write_bytes_per_secQ env1 s with ⟨r1, t1⟩
  by_cases hm : r1 = -1
  · subst hm
    have hs := disk_io_write_bytes_per_secQ_stable env1 env2 s
    rw [h1] at hs
    simp only at hs
    rcases h2 : disk_io_write_bytes_per_secQ env2 t1 with ⟨r2, t2⟩
    rw [h2] at hs
    simp only at hs
    simp [h2, hs]
  · have hsa := disk_io_write_bytes_per_secQ_stable env1 env1 s
    rw [h1] at hsa
    simp only at hsa
    rcases h2 : disk_io_write_bytes_per_secQ env1 t1 with ⟨r2, t2⟩
    rw [h2] at hsa
    simp only at hsa
    have hsb := disk_io_write_bytes_per_secQ_stable env1 env2 t1
    rw [h2] at hsb
    simp only at hsb
    rcases h3 : disk_io_write_bytes_per_secQ env2 t2 with ⟨r3, t3⟩
    rw [h3] at hsb
    simp only at hsb
    have hsc := disk_io_write_bytes_per_secQ_stable env2 env2 t2
    rw [h3] at hsc
    simp only at hsc
    rcases h4 : disk_io_write_bytes_per_secQ env2 t3 with ⟨r4, t4⟩
    rw [h4] at hsc
    simp only at hsc
    subst hsa
    subst hsb
    subst hsc
    simp [hm, h2, h3, h4]


lemma cpu_percent_baselines (env : Env) (s : LazySystemValueFetcher) :
    baselinesOf (cpu_percent env s).2 = baselinesOf s := by
  unfold cpu_percent cpu_percentQ
  rcases h : ensure_cpu_percent env s with ⟨v, t⟩
  have hp := ensure_cpu_percent_baselines env s
  rw [h] at hp
  simpa using hp

lemma ram_percent_baselines (env : Env) (s : LazySystemValueFetcher) :
    baselinesOf (ram_percent env s).2 = baselinesOf s := by
  unfold ram_percent ram_percentQ
  rcases h : ensure_virtual_memory env s with ⟨v, t⟩
  have hp := ensure_virtual_memory_baselines env s
  rw [h] at hp
  simpa using hp

lemma ram_total_baselines (env : Env) (s : LazySystemValueFetcher) :
    baselinesOf (ram_total env s).2 = baselinesOf s := by
  unfold ram_total ram_totalZ
  rcases h : ensure_virtual_memory env s with ⟨v, t⟩
  have hp := ensure_virtual_memory_baselines env s
  rw [h] at hp
  simpa using hp

lemma ram_total_mb_baselines (env : Env) (s : LazySystemValueFetcher) :
    baselinesOf (ram_total_mb env s).2 = baselinesOf s := by
  unfold ram_total_mb ram_totalZ
  rcases h : ensure_virtual_memory env s with ⟨v, t⟩
  have hp := ensure_virtual_memory_baselines env s
  rw [h] at hp
  simpa using hp

lemma ram_total_gb_baselines (env : Env) (s : LazySystemValueFetcher) :
    baselinesOf (ram_total_gb env s).2 = baselinesOf s := by
  unfold ram_total_gb ram_totalZ
  rcases h : ensure_virtual_memory env s with ⟨v, t⟩
  have hp := ensure_virtual_memory_baselines env s
  rw [h] at hp
  simpa using hp

lemma ram_used_baselines (env : Env) (s : LazySystemValueFetcher) :
    baselinesOf (ram_used env s).2 = baselinesOf s := by
  unfold ram_used ram_usedZ
  rcases h : ensure_virtual_memory env s with ⟨v, t⟩
  have hp := ensure_virtual_memory_baselines env s
  rw [h] at hp
  simpa using hp

lemma ram_used_mb_baselines (env : Env) (s : LazySystemValueFetcher) :
    baselinesOf (ram_used_mb env s).2 = baselinesOf s := by
  unfold ram_used_mb ram_usedZ
  rcases h : ensure_virtual_memory env s with ⟨v, t⟩
  have hp := ensure_virtual_memory_baselines env s
  rw [h] at hp
  simpa using hp

lemma ram_used_gb_baselines (env : Env) (s : LazySystemValueFetcher) :
    baselinesOf (ram_used_gb env s).2 = baselinesOf s := by
  unfold ram_used_gb ram_usedZ
  rcases h : ensure_virtual_memory env s with ⟨v, t⟩
  have hp := ensure_virtual_memory_baselines env s
  rw [h] at hp
  simpa using hp

lemma network_bytes_sent_baselines (env : Env) (s : LazySystemValueFetcher) :
    baselinesOf (network_bytes_sent env s).2 = baselinesOf s := by
  unfold network_bytes_sent network_bytes_sentZ
  rcases h : ensure_net_io env s with ⟨v, t⟩
  have hp := ensure_net_io_baselines env s
  rw [h] at hp
  simpa using hp

lemma network_kb_sent_baselines (env : Env) (s : LazySystemValueFetcher) :
    baselinesOf (network_kb_sent env s).2 = baselinesOf s := by
  unfold network_kb_sent network_bytes_sentZ
  rcases h : ensure_net_io env s with ⟨v, t⟩
  have hp := ensure_net_io_baselines env s
  rw [h] at hp
  simpa using hp

lemma network_mb_sent_baselines (env : Env) (s : LazySystemValueFetcher) :
    baselinesOf (network_mb_sent env s).2 = baselinesOf s := by
  unfold network_mb_sent network_bytes_sentZ
  rcases h : ensure_net_io env s with ⟨v, t⟩
  have hp := ensure_net_io_baselines env s
  rw [h] at hp
  simpa using hp

lemma network_bytes_recv_baselines (env : Env) (s : LazySystemValueFetcher) :
    baselinesOf (network_bytes_recv env s).2 = baselinesOf s := by
  unfold network_bytes_recv network_bytes_recvZ
  rcases h : ensure_net_io env s with ⟨v, t⟩
  have hp := ensure_net_io_baselines env s
  rw [h] at hp
  simpa using hp

lemma network_kb_recv_baselines (env : Env) (s : LazySystemValueFetcher) :
    baselinesOf (network_kb_recv env s).2 = baselinesOf s := by
  unfold network_kb_recv network_bytes_recvZ
  rcases h : ensure_net_io env s with ⟨v, t⟩
  have hp := ensure_net_io_baselines env s
  rw [h] at hp
  simpa using hp

lemma network_mb_recv_baselines (env : Env) (s : LazySystemValueFetcher) :
    baselinesOf (network_mb_recv env s).2 = baselinesOf s := by
  unfold network_mb_recv network_bytes_recvZ
  rcases h : ensure_net_io env s with ⟨v, t⟩
  have hp := ensure_net_io_baselines env s
  rw [h] at hp
  simpa using hp

lemma network_gb_recv_baselines (env : Env) (s : LazySystemValueFetcher) :
    baselinesOf (network_gb_recv env s).2 = baselinesOf s := by
  unfold network_gb_recv network_bytes_recvZ
  rcases h : ensure_net_io env s with ⟨v, t⟩
  have hp := ensure_net_io_baselines env s
  rw [h] at hp
  simpa using hp

lemma cpu_demanding_process_baselines (env : Env) (s : LazySystemValueFetcher) :
    baselinesOf (cpu_demanding_process env s).2 = baselinesOf s := by
  unfold cpu_demanding_process
  by_cases ha : s.is_admin
  · rcases h : ensure_process_iter env s with ⟨v, t⟩
    have hp := ensure_process_iter_baselines env s
    rw [h] at hp
    simp only at hp
    simp [ha, hp]
  · simp [Bool.not_eq_true] at ha
    simp [ha]

lemma cpu_demanding_process_cpu_percent_baselines (env : Env) (s : LazySystemValueFetcher) :
    baselinesOf (cpu_demanding_process_cpu_percent env s).2 = baselinesOf s := by
  unfold cpu_demanding_process_cpu_percent
  by_cases ha : s.is_admin
  · rcases h : ensure_process_iter env s with ⟨v, t⟩
    have hp := ensure_process_iter_baselines env s
    rw [h] at hp
    simp only at hp
    simp [ha, hp]
  · simp [Bool.not_eq_true] at ha
    simp [ha]

lemma cpu_percentQ_baselines (env : Env) (s : LazySystemValueFetcher) :
    baselinesOf (cpu_percentQ env s).2 = baselinesOf s := by
  unfold cpu_percentQ
  exact ensure_cpu_percent_baselines env s

lemma ram_percentQ_baselines (env : Env) (s : LazySystemValueFetcher) :
    baselinesOf (ram_percentQ env s).2 = baselinesOf s := by
  unfold ram_percentQ
  rcases h : ensure_virtual_memory env s with ⟨v, t⟩
  have hp := ensure_virtual_memory_baselines env s
  rw [h] at hp
  simpa using hp

lemma cpu_percent_plot_baselines (env : Env) (s : LazySystemValueFetcher) :
    baselinesOf (cpu_percent_plot env s).2 = baselinesOf s := by
  unfold cpu_percent_plot
  rcases h : cpu_percentQ env s with ⟨v, t⟩
  have hp := cpu_percentQ_baselines env s
  rw [h] at hp
  simp only at hp
  cases hpl : s.cpu_percent_plotter with
  | none =>
    cases hu : (SparklineGenerator.init 30 (some 0) (some 100)).update v with
    | none => simpa [hu] using hp
    | some p1 => simpa [hu] using hp
  | some p0 =>
    cases hu : p0.update v with
    | none => simpa [hu] using hp
    | some p1 => simpa [hu] using hp

lemma ram_percent_plot_baselines (env : Env) (s : LazySystemValueFetcher) :
    baselinesOf (ram_percent_plot env s).2 = baselinesOf s := by
  unfold ram_percent_plot
  rcases h : ram_percentQ env s with ⟨v, t⟩
  have hp := ram_percentQ_baselines env s
  rw [h] at hp
  simp only at hp
  cases hpl : s.ram_percent_plotter with
  | none =>
    cases hu : (SparklineGenerator.init 30 (some 0) (some 100)).update v with
    | none => simpa [hu] using hp
    | some p1 => simpa [hu] using hp
  | some p0 =>
    cases hu : p0.update v with
    | none => simpa [hu] using hp
    | some p1 => simpa [hu] using hp

lemma disk_io_read_bytes_baselines (env : Env) (s : LazySystemValueFetcher) :
    baselinesOf (disk_io_read_bytes env s).2 = baselinesOf s := by
  unfold disk_io_read_bytes
  obtain ⟨d, hv, hst⟩ := disk_io_read_bytesZ_spec env s
  rcases hb : disk_io_read_bytesZ env s with ⟨b, t⟩
  rw [hb] at hst
  simp only at hst
  simp [hst, baselinesOf]

lemma disk_io_write_bytes_baselines (env : Env) (s : LazySystemValueFetcher) :
    baselinesOf (disk_io_write_bytes env s).2 = baselinesOf s := by
  unfold disk_io_write_bytes
  obtain ⟨d, hv, hst⟩ := disk_io_write_bytesZ_spec env s
  rcases hb : disk_io_write_bytesZ env s with ⟨b, t⟩
  rw [hb] at hst
  simp only at hst
  simp [hst, baselinesOf]

lemma disk_io_read_kb_baselines (env : Env) (s : LazySystemValueFetcher) :
    baselinesOf (disk_io_read_kb env s).2 = baselinesOf s := by
  unfold disk_io_read_kb
  obtain ⟨d, hv, hst⟩ := disk_io_read_bytesZ_spec env s
  rcases hb : disk_io_read_bytesZ env s with ⟨b, t⟩
  rw [hb] at hv hst
  simp only at hv hst
  subst hv
  have hcd : t.cache.disk_io_counters = some d := by rw [hst]
  by_cases hm : diskReadVal d = -1
  · simp [hm, hst, baselinesOf]
  · simp only [if_neg hm]
    rw [disk_io_read_bytesZ_of_cached env t d hcd]
    simp [hst, baselinesOf]

lemma disk_io_read_mb_baselines (env : Env) (s : LazySystemValueFetcher) :
    baselinesOf (disk_io_read_mb env s).2 = baselinesOf s := by
  unfold disk_io_read_mb
  obtain ⟨d, hv, hst⟩ := disk_io_read_bytesZ_spec env s
  rcases hb : disk_io_read_bytesZ env s with ⟨b, t⟩
  rw [hb] at hv hst
  simp only at hv hst
  subst hv
  have hcd : t.cache.disk_io_counters = some d := by rw [hst]
  by_cases hm : diskReadVal d = -1
  · simp [hm, hst, baselinesOf]
  · simp only [if_neg hm]
    rw [disk_io_read_bytesZ_of_cached env t d hcd]
    simp [hst, baselinesOf]

lemma disk_io_read_gb_baselines (env : Env) (s : LazySystemValueFetcher) :
    baselinesOf (disk_io_read_gb env s).2 = baselinesOf s := by
  unfold disk_io_read_gb
  obtain ⟨d, hv, hst⟩ := disk_io_read_bytesZ_spec env s
  rcases hb : disk_io_read_bytesZ env s with ⟨b, t⟩
  rw [hb] at hv hst
  simp only at hv hst
  subst hv
  have hcd : t.cache.disk_io_counters = some d := by rw [hst]
  by_cases hm : diskReadVal d = -1
  · simp [hm, hst, baselinesOf]
  · simp only [if_neg hm]
    rw [disk_io_read_bytesZ_of_cached env t d hcd]
    simp [hst, baselinesOf]

lemma disk_io_write_kb_baselines (env : Env) (s : LazySystemValueFetcher) :
    baselinesOf (disk_io_write_kb env s).2 = baselinesOf s := by
  unfold disk_io_write_kb
  obtain ⟨d, hv, hst⟩ := disk_io_write_bytesZ_spec env s
  rcases hb : disk_io_write_bytesZ env s with ⟨b, t⟩
  rw [hb] at hv hst
  simp only at hv hst
  subst hv
  have hcd : t.cache.disk_io_counters = some d := by rw [hst]
  by_cases hm : diskWriteVal d = -1
  · simp [hm, hst, baselinesOf]
  · simp only [if_neg hm]
    rw [disk_io_write_bytesZ_of_cached env t d hcd]
    simp [hst, baselinesOf]

lemma disk_io_write_mb_baselines (env : Env) (s : LazySystemValueFetcher) :
    baselinesOf (disk_io_write_mb env s).2 = baselinesOf s := by
  unfold disk_io_write_mb
  obtain ⟨d, hv, hst⟩ := disk_io_write_bytesZ_spec env s
  rcases hb : disk_io_write_bytesZ env s with ⟨b, t⟩
  rw [hb] at hv hst
  simp only at hv hst
  subst hv
  have hcd : t.cache.disk_io_counters = some d := by rw [hst]
  by_cases hm : diskWriteVal d = -1
  · simp [hm, hst, baselinesOf]
  · simp only [if_neg hm]
    rw [disk_io_write_bytesZ_of_cached env t d hcd]
    simp [hst, baselinesOf]

lemma disk_io_write_gb_baselines (env : Env) (s : LazySystemValueFetcher) :
    baselinesOf (disk_io_write_gb env s).2 = baselinesOf s := by
  unfold disk_io_write_gb
  obtain ⟨d, hv, hst⟩ := disk_io_write_bytesZ_spec env s
  rcases hb : disk_io_write_bytesZ env s with ⟨b, t⟩
  rw [hb] at hv hst
  simp only at hv hst
  subst hv
  have hcd : t.cache.disk_io_counters = some d := by rw [hst]
  by_cases hm : diskWriteVal d = -1
  · simp [hm, hst, baselinesOf]
  · simp only [if_neg hm]
    rw [disk_io_write_bytesZ_of_cached env t d hcd]
    simp [hst, baselinesOf]


lemma network_sent_rate_first (env : Env) (s : LazySystemValueFetcher)
    (h : s.network_bytes_sent_last = none) :
    network_bytes_sent_per_sec env s =
      (Value.rat 0,
       { (ensure_net_io env s).2 with
           network_bytes_sent_last := some (env.now, (ensure_net_io env s).1.1) }) := by
  unfold network_bytes_sent_per_sec network_bytes_sent_per_secQ
  rcases hn : ensure_net_io env s with ⟨net, t⟩
  have hb := ensure_net_io_baselines env s
  rw [hn] at hb
  simp only at hb
  have h1 : t.network_bytes_sent_last = none := by
    have h2 := congrArg (fun x => x.1) hb
    simp [baselinesOf] at h2
    rw [h2, h]
  simp [h1]

lemma network_sent_rate_next (env : Env) (s : LazySystemValueFetcher) (t0 : ℚ) (c0 : ℤ)
    (h : s.network_bytes_sent_last = some (t0, c0)) :
    network_bytes_sent_per_sec env s =
      (Value.rat ((((ensure_net_io env s).1.1 - c0 : ℤ) : ℚ) / (env.now - t0)),
       { (ensure_net_io env s).2 with
           network_bytes_sent_last := some (env.now, (ensure_net_io env s).1.1) }) := by
  unfold network_bytes_sent_per_sec network_bytes_sent_per_secQ
  rcases hn : ensure_net_io env s with ⟨net, t⟩
  have hb := ensure_net_io_baselines env s
  rw [hn] at hb
  simp only at hb
  have h1 : t.network_bytes_sent_last = some (t0, c0) := by
    have h2 := congrArg (fun x => x.1) hb
    simp [baselinesOf] at h2
    rw [h2, h]
  simp [h1]

lemma network_recv_rate_first (env : Env) (s : LazySystemValueFetcher)
    (h : s.network_bytes_recv_last = none) :
    network_bytes_recv_per_sec env s =
      (Value.rat 0,
       { (ensure_net_io env s).2 with
           network_bytes_recv_last := some (env.now, (ensure_net_io env s).1.2) }) := by
  unfold network_bytes_recv_per_sec network_bytes_recv_per_secQ
  rcases hn : ensure_net_io env s with ⟨net, t⟩
  have hb := ensure_net_io_baselines env s
  rw [hn] at hb
  simp only at hb
  have h1 : t.network_bytes_recv_last = none := by
    have h2 := congrArg (fun x => x.2.1) hb
    simp [baselinesOf] at h2
    rw [h2, h]
  simp [h1]

lemma network_recv_rate_next (env : Env) (s : LazySystemValueFetcher) (t0 : ℚ) (c0 : ℤ)
    (h : s.network_bytes_recv_last = some (t0, c0)) :
    network_bytes_recv_per_sec env s =
      (Value.rat ((((ensure_net_io env s).1.2 - c0 : ℤ) : ℚ) / (env.now - t0)),
       { (ensure_net_io env s).2 with
           network_bytes_recv_last := some (env.now, (ensure_net_io env s).1.2) }) := by
  unfold network_bytes_recv_per_sec network_bytes_recv_per_secQ
  rcases hn : ensure_net_io env s with ⟨net, t⟩
  have hb := ensure_net_io_baselines env s
  rw [hn] at hb
  simp only at hb
  have h1 : t.network_bytes_recv_last = some (t0, c0) := by
    have h2 := congrArg (fun x => x.2.1) hb
    simp [baselinesOf] at h2
    rw [h2, h]
  simp [h1]

lemma disk_read_rate_cached (env : Env) (s : LazySystemValueFetcher) (r : ℚ)
    (h : s.cache.disk_io_read_bytes_per_sec = some r) :
    disk_io_read_bytes_per_sec env s = (Value.rat r, s) := by
  unfold disk_io_read_bytes_per_sec disk_io_read_bytes_per_secQ
  simp [h]

lemma disk_read_rate_unavailable (env : Env) (s : LazySystemValueFetcher)
    (hr : s.cache.disk_io_read_bytes_per_sec = none)
    (hm : (disk_io_read_bytesZ env s).1 = -1) :
    disk_io_read_bytes_per_sec env s = (Value.rat (-1), (disk_io_read_bytesZ env s).2) := by
  unfold disk_io_read_bytes_per_sec disk_io_read_bytes_per_secQ
  rcases hb : disk_io_read_bytesZ env s with ⟨b, t⟩
  rw [hb] at hm
  simp only at hm
  simp [hr, hm]

lemma disk_read_rate_first (env : Env) (s : LazySystemValueFetcher)
    (hr : s.cache.disk_io_read_bytes_per_sec = none)
    (hm : (disk_io_read_bytesZ env s).1 ≠ -1)
    (hl : ((disk_io_read_bytesZ env s).2).disk_io_read_bytes_last = none) :
    disk_io_read_bytes_per_sec env s =
      (Value.rat 0,
       { (disk_io_read_bytesZ env s).2 with
           disk_io_read_bytes_last :=
             some (env.now, (cachedDiskCounters (disk_io_read_bytesZ env s).2).1) }) := by
  unfold disk_io_read_bytes_per_sec disk_io_read_bytes_per_secQ
  rcases hb : disk_io_read_bytesZ env s with ⟨b, t⟩
  rw [hb] at hm hl
  simp only at hm hl
  simp [hr, hm, hl]

lemma disk_read_rate_next (env : Env) (s : LazySystemValueFetcher) (t0 : ℚ) (c0 : ℤ)
    (hr : s.cache.disk_io_read_bytes_per_sec = none)
    (hm : (disk_io_read_bytesZ env s).1 ≠ -1)
    (hl : ((disk_io_read_bytesZ env s).2).disk_io_read_bytes_last = some (t0, c0)) :
    disk_io_read_bytes_per_sec env s =
      (Value.rat ((((disk_io_read_bytesZ env s).1 - c0 : ℤ) : ℚ) / (env.now - t0)),
       { (disk_io_read_bytesZ env s).2 with
           disk_io_read_bytes_last :=
             some (env.now, (cachedDiskCounters (disk_io_read_bytesZ env s).2).1),
           cache := { ((disk_io_read_bytesZ env s).2).cache with
             disk_io_read_bytes_per_sec :=
               some ((((disk_io_read_bytesZ env s).1 - c0 : ℤ) : ℚ) / (env.now - t0)) } }) := by
  unfold disk_io_read_bytes_per_sec disk_io_read_bytes_per_secQ
  obtain ⟨d, hv, hst⟩ := disk_io_read_bytesZ_spec env s
  rcases hb : disk_io_read_bytesZ env s with ⟨b, t⟩
  rw [hb] at hv hst hm hl
  simp only at hv hst hm hl
  have hcd : t.cache.disk_io_counters = some d := by rw [hst]
  simp [hr, hm, hl, ← hv, disk_io_read_bytesZ_of_cached env t d hcd]

lemma disk_write_rate_cached (env : Env) (s : LazySystemValueFetcher) (r : ℚ)
    (h : s.cache.disk_io_write_bytes_per_sec = some r) :
    disk_io_write_bytes_per_sec env s = (Value.rat r, s) := by
  unfold disk_io_write_bytes_per_sec disk_io_write_bytes_per_secQ
  simp [h]

lemma disk_write_rate_unavailable (env : Env) (s : LazySystemValueFetcher)
    (hr : s.cache.disk_io_write_bytes_per_sec = none)
    (hm : (disk_io_write_bytesZ env s).1 = -1) :
    disk_io_write_bytes_per_sec env s = (Value.rat (-1), (disk_io_write_bytesZ env s).2) := by
  unfold disk_io_write_bytes_per_sec disk_io_write_bytes_per_secQ
  rcases hb : disk_io_write_bytesZ env s with ⟨b, t⟩
  rw [hb] at hm
  simp only at hm
  simp [hr, hm]

lemma disk_write_rate_first (env : Env) (s : LazySystemValueFetcher)
    (hr : s.cache.disk_io_write_bytes_per_sec = none)
    (hm : (disk_io_write_bytesZ env s).1 ≠ -1)
    (hl : ((disk_io_write_bytesZ env s).2).disk_io_write_bytes_last = none) :
    disk_io_write_bytes_per_sec env s =
      (Value.rat 0,
       { (disk_io_write_bytesZ env s).2 with
           disk_io_write_bytes_last :=
             some (env.now, (cachedDiskCounters (disk_io_write_bytesZ env s).2).2) }) := by
  unfold disk_io_write_bytes_per_sec disk_io_write_bytes_per_secQ
  rcases hb : disk_io_write_bytesZ env s with ⟨b, t⟩
  rw [hb] at hm hl
  simp only at hm hl
  simp [hr, hm, hl]

lemma disk_write_rate_next (env : Env) (s : LazySystemValueFetcher) (t0 : ℚ) (c0 : ℤ)
    (hr : s.cache.disk_io_write_bytes_per_sec = none)
    (hm : (disk_io_write_bytesZ env s).1 ≠ -1)
    (hl : ((disk_io_write_bytesZ env s).2).disk_io_write_bytes_last = some (t0, c0)) :
    disk_io_write_bytes_per_sec env s =
      (Value.rat ((((disk_io_write_bytesZ env s).1 - c0 : ℤ) : ℚ) / (env.now - t0)),
       { (disk_io_write_bytesZ env s).2 with
           disk_io_write_bytes_last :=
             some (env.now, (cachedDiskCounters (disk_io_write_bytesZ env s).2).2),
           cache := { ((disk_io_write_bytesZ env s).2).cache with
             disk_io_write_bytes_per_sec :=
               some ((((disk_io_write_bytesZ env s).1 - c0 : ℤ) : ℚ) / (env.now - t0)) } }) := by
  unfold disk_io_write_bytes_per_sec disk_io_write_bytes_per_secQ
  obtain ⟨d, hv, hst⟩ := disk_io_write_bytesZ_spec env s
  rcases hb : disk_io_write_bytesZ env s with ⟨b, t⟩
  rw [hb] at hv hst hm hl
  simp only at hv hst hm hl
  have hcd : t.cache.disk_io_counters = some d := by rw [hst]
  simp [hr, hm, hl, ← hv, disk_io_write_bytesZ_of_cached env t d hcd]

end LazySystemValueFetcher

end Obidome

namespace Obidome
namespace LazySystemValueFetcher

lemma attrGet_eq_cpu_percent_plotter (env : Env) (s : LazySystemValueFetcher) :
    attrGet env s "_cpu_percent_plotter" =
      Option.map (fun p => (Value.plot p, s)) s.cpu_percent_plotter := rfl

lemma attrGet_eq_ram_percent_plotter (env : Env) (s : LazySystemValueFetcher) :
    attrGet env s "_ram_percent_plotter" =
      Option.map (fun p => (Value.plot p, s)) s.ram_percent_plotter := rfl

lemma attrGet_eq_network_bytes_sent_last (env : Env) (s : LazySystemValueFetcher) :
    attrGet env s "_network_bytes_sent_last" =
      Option.map (fun l => (Value.baseline l.1 l.2, s)) s.network_bytes_sent_last := rfl

lemma attrGet_eq_network_bytes_recv_last (env : Env) (s : LazySystemValueFetcher) :
    attrGet env s "_network_bytes_recv_last" =
      Option.map (fun l => (Value.baseline l.1 l.2, s)) s.network_bytes_recv_last := rfl

lemma attrGet_eq_disk_io_read_bytes_last (env : Env) (s : LazySystemValueFetcher) :
    attrGet env s "_disk_io_read_bytes_last" =
      Option.map (fun l => (Value.baseline l.1 l.2, s)) s.disk_io_read_bytes_last := rfl

lemma attrGet_eq_disk_io_write_bytes_last (env : Env) (s : LazySystemValueFetcher) :
    attrGet env s "_disk_io_write_bytes_last" =
      Option.map (fun l => (Value.baseline l.1 l.2, s)) s.disk_io_write_bytes_last := rfl

lemma getitem_none_baselines (key : String) (env : Env) (s : LazySystemValueFetcher)
    (h : attrGet env s key = none) :
    baselinesOf (getitem env s key).2 = baselinesOf s := by
  unfold getitem
  rw [h]
  cases hy : List.lookup key s.custom_keys <;> simp [baselinesOf]

lemma nonRate_preserves (key : String) (hk : key ∈ nonRateKeys) (env : Env)
    (s : LazySystemValueFetcher) :
    baselinesOf (getitem env s key).2 = baselinesOf s := by
  fin_cases hk
  · exact cpu_percent_baselines env s
  · exact cpu_percent_plot_baselines env s
  · exact ram_percent_baselines env s
  · exact ram_percent_plot_baselines env s
  · exact ram_total_baselines env s
  · exact ram_total_mb_baselines env s
  · exact ram_total_gb_baselines env s
  · exact ram_used_baselines env s
  · exact ram_used_mb_baselines env s
  · exact ram_used_gb_baselines env s
  · exact cpu_demanding_process_baselines env s
  · exact cpu_demanding_process_cpu_percent_baselines env s
  · exact network_bytes_sent_baselines env s
  · exact network_kb_sent_baselines env s
  · exact network_mb_sent_baselines env s
  · exact network_bytes_recv_baselines env s
  · exact network_kb_recv_baselines env s
  · exact network_mb_recv_baselines env s
  · exact network_gb_recv_baselines env s
  · exact disk_io_read_bytes_baselines env s
  · exact disk_io_read_kb_baselines env s
  · exact disk_io_read_mb_baselines env s
  · exact disk_io_read_gb_baselines env s
  · exact disk_io_write_bytes_baselines env s
  · exact disk_io_write_kb_baselines env s
  · exact disk_io_write_mb_baselines env s
  · exact disk_io_write_gb_baselines env s
  · rfl
  · rfl
  · rfl
  · rfl
  · rfl
  · rfl
  · rfl
  · rfl
  · cases hx : s.cpu_percent_plotter with
    | some p =>
      unfold getitem
      rw [attrGet_eq_cpu_percent_plotter, hx]
      rfl
    | none =>
      exact getitem_none_baselines _ env s (by rw [attrGet_eq_cpu_percent_plotter, hx]; rfl)
  · cases hx : s.ram_percent_plotter with
    | some p =>
      unfold getitem
      rw [attrGet_eq_ram_percent_plotter, hx]
      rfl
    | none =>
      exact getitem_none_baselines _ env s (by rw [attrGet_eq_ram_percent_plotter, hx]; rfl)
  · cases hx : s.network_bytes_sent_last with
    | some p =>
      unfold getitem
      rw [attrGet_eq_network_bytes_sent_last, hx]
      rfl
    | none =>
      exact getitem_none_baselines _ env s (by rw [attrGet_eq_network_bytes_sent_last, hx]; rfl)
  · cases hx : s.network_bytes_recv_last with
    | some p =>
      unfold getitem
      rw [attrGet_eq_network_bytes_recv_last, hx]
      rfl
    | none =>
      exact getitem_none_baselines _ env s (by rw [attrGet_eq_network_bytes_recv_last, hx]; rfl)
  · cases hx : s.disk_io_read_bytes_last with
    | some p =>
      unfold getitem
      rw [attrGet_eq_disk_io_read_bytes_last, hx]
      rfl
    | none =>
      exact getitem_none_baselines _ env s (by rw [attrGet_eq_disk_io_read_bytes_last, hx]; rfl)
  · cases hx : s.disk_io_write_bytes_last with
    | some p =>
      unfold getitem
      rw [attrGet_eq_disk_io_write_bytes_last, hx]
      rfl
    | none =>
      exact getitem_none_baselines _ env s (by rw [attrGet_eq_disk_io_write_bytes_last, hx]; rfl)


lemma disk_io_read_bytesZ_none (env : Env) (s : LazySystemValueFetcher)
    (henv : env.disk_io = none)
    (hc : s.cache.disk_io_counters = none ∨ s.cache.disk_io_counters = some none) :
    disk_io_read_bytesZ env s =
      (-1, { s with cache := { s.cache with disk_io_counters := some none } }) := by
  rcases hc with hc | hc
  · unfold disk_io_read_bytesZ ensure_disk_io
    simp [hc, henv]
  · rw [disk_io_read_bytesZ_of_cached env s none hc]
    refine Prod.ext rfl ?_
    cases s with
    | mk cache ck ia a b c dd e f g w =>
      cases cache
      simp_all

lemma disk_io_write_bytesZ_none (env : Env) (s : LazySystemValueFetcher)
    (henv : env.disk_io = none)
    (hc : s.cache.disk_io_counters = none ∨ s.cache.disk_io_counters = some none) :
    disk_io_write_bytesZ env s =
      (-1, { s with cache := { s.cache with disk_io_counters := some none } }) := by
  rcases hc with hc | hc
  · unfold disk_io_write_bytesZ ensure_disk_io
    simp [hc, henv]
  · rw [disk_io_write_bytesZ_of_cached env s none hc]
    refine Prod.ext rfl ?_
    cases s with
    | mk cache ck ia a b c dd e f g w =>
      cases cache
      simp_all

lemma disk_read_rateQ_none (env : Env) (s : LazySystemValueFetcher)
    (henv : env.disk_io = none)
    (hc : s.cache.disk_io_counters = none ∨ s.cache.disk_io_counters = some none)
    (hr : s.cache.disk_io_read_bytes_per_sec = none) :
    disk_io_read_bytes_per_secQ env s =
      (-1, { s with cache := { s.cache with disk_io_counters := some none } }) := by
  unfold disk_io_read_bytes_per_secQ
  rw [hr, disk_io_read_bytesZ_none env s henv hc]
  simp

lemma disk_write_rateQ_none (env : Env) (s : LazySystemValueFetcher)
    (henv : env.disk_io = none)
    (hc : s.cache.disk_io_counters = none ∨ s.cache.disk_io_counters = some none)
    (hw : s.cache.disk_io_write_bytes_per_sec = none) :
    disk_io_write_bytes_per_secQ env s =
      (-1, { s with cache := { s.cache with disk_io_counters := some none } }) := by
  unfold disk_io_write_bytes_per_secQ
  rw [hw, disk_io_write_bytesZ_none env s henv hc]
  simp


end LazySystemValueFetcher
end Obidome

namespace Obidome

open LazySystemValueFetcher

/-- C1 is refuted at a concrete input: a configured custom key read twice
within one tick (no clear_cache in between) invokes its shell command twice
and returns two different values, and a network rate metric read twice
within one tick returns 1024 and then 0. -/
theorem C1_counterexample :
    "mykey" ∉ builtinMetricKeys
    ∧ List.lookup "mykey" fetcher0.custom_keys = some "cmd"
    ∧ (getitem envT1 fetcher0 "mykey").1 = Value.str "a"
    ∧ (getitem envT2 (getitem envT1 fetcher0 "mykey").2 "mykey").1 = Value.str "b"
    ∧ Value.str "a" ≠ Value.str "b"
    ∧ (getitem envT2 (getitem envT1 fetcher0 "mykey").2 "mykey").2.subprocCalls = 2
    ∧ (getitem envT1 fetcherSent "network_bytes_sent_per_sec").1 = Value.rat 1024
    ∧ (getitem envT2 (getitem envT1 fetcherSent "network_bytes_sent_per_sec").2
         "network_bytes_sent_per_sec").1 = Value.rat 0
    ∧ Value.rat 1024 ≠ Value.rat 0 := by
  refine ⟨by decide, rfl, by decide, by decide, by decide, rfl, ?_, ?_, by norm_num⟩
  · rw [getitem_eq_network_bytes_sent_per_sec,
        network_sent_rate_next envT1 fetcherSent 0 0 rfl]
    simp only [Value.rat.injEq]
    norm_num [ensure_net_io, fetcherSent, fetcher0, envT1]
  · rw [getitem_eq_network_bytes_sent_per_sec, getitem_eq_network_bytes_sent_per_sec,
        network_sent_rate_next envT1 fetcherSent 0 0 rfl]
    simp only
    rw [network_sent_rate_next envT2 _ 1 1024 rfl]
    simp only [Value.rat.injEq]
    norm_num [ensure_net_io, fetcherSent, fetcher0, envT1, envT2]

/-- C1 (amended): for every built-in metric key except the two sparkline
metrics and the seven network per-second metrics, two reads of the key
within one refresh cycle (no intervening clear_cache) return the identical
value, even if the OS counters or the clock changed between the reads.
Custom keys re-run their shell command on every read and network per-second
rates are recomputed on every read, so those are excluded. -/
theorem C1_amended (key : String) (hk : key ∈ tickStableKeys)
    (env1 env2 : Env) (s : LazySystemValueFetcher) :
    (getitem env2 (getitem env1 s key).2 key).1 = (getitem env1 s key).1 := by
  fin_cases hk
  · exact cpu_percent_stable env1 env2 s
  · exact ram_percent_stable env1 env2 s
  · exact ram_total_stable env1 env2 s
  · exact ram_total_mb_stable env1 env2 s
  · exact ram_total_gb_stable env1 env2 s
  · exact ram_used_stable env1 env2 s
  · exact ram_used_mb_stable env1 env2 s
  · exact ram_used_gb_stable env1 env2 s
  · exact cpu_demanding_process_stable env1 env2 s
  · exact cpu_demanding_process_cpu_percent_stable env1 env2 s
  · exact network_bytes_sent_stable env1 env2 s
  · exact network_kb_sent_stable env1 env2 s
  · exact network_mb_sent_stable env1 env2 s
  · exact network_bytes_recv_stable env1 env2 s
  · exact network_kb_recv_stable env1 env2 s
  · exact network_mb_recv_stable env1 env2 s
  · exact network_gb_recv_stable env1 env2 s
  · exact disk_io_read_bytes_stable env1 env2 s
  · exact disk_io_read_kb_stable env1 env2 s
  · exact disk_io_read_mb_stable env1 env2 s
  · exact disk_io_read_gb_stable env1 env2 s
  · exact disk_io_read_bytes_per_sec_stable env1 env2 s
  · exact disk_io_read_kb_per_sec_stable env1 env2 s
  · exact disk_io_read_mb_per_sec_stable env1 env2 s
  · exact disk_io_read_gb_per_sec_stable env1 env2 s
  · exact disk_io_write_bytes_stable env1 env2 s
  · exact disk_io_write_kb_stable env1 env2 s
  · exact disk_io_write_mb_stable env1 env2 s
  · exact disk_io_write_gb_stable env1 env2 s
  · exact disk_io_write_bytes_per_sec_stable env1 env2 s
  · exact disk_io_write_kb_per_sec_stable env1 env2 s
  · exact disk_io_write_mb_per_sec_stable env1 env2 s
  · exact disk_io_write_gb_per_sec_stable env1 env2 s

/-- Witness for C1_amended at the key cpu_percent, a fresh fetcher and two
different environments. -/
theorem C1_witness :
    "cpu_percent" ∈ tickStableKeys
    ∧ (getitem envT2 (getitem envT1 fetcher0 "cpu_percent").2 "cpu_percent").1 =
        (getitem envT1 fetcher0 "cpu_percent").1 :=
  ⟨by decide, C1_amended "cpu_percent" (by decide) envT1 envT2 fetcher0⟩

/-- C2: snap_position computes the target physical X as taskbarRight minus
trayWidth minus the overlay physical width minus the physical right margin,
centers vertically with overlay logical height equal to taskbar physical
height divided by the scale factor minus 4, and converts back to logical
coordinates by Python int() truncation of division by the scale factor;
concretely, taskbar rect (0,0,1920,40), tray width 160, overlay logical
width 100, margin 10 and scale 1.0 give logical position (1650, 2) with
overlay height 36. -/
theorem C2_snap_position :
    (∀ (tb : RECT) (tray_phys_w my_log_w : ℤ) (margin_right dpr : ℚ),
      snap_position tb tray_phys_w my_log_w margin_right dpr =
        { x := pyInt (((tb.right : ℚ) - tray_phys_w - my_log_w * dpr - margin_right * dpr) / dpr),
          y := pyInt (((tb.top : ℚ) +
                 (((tb.bottom - tb.top : ℤ) : ℚ) -
                   (((tb.bottom - tb.top : ℤ) : ℚ) / dpr - 4) * dpr) / 2) / dpr),
          w := my_log_w,
          h := pyInt (((tb.bottom - tb.top : ℤ) : ℚ) / dpr - 4) })
    ∧ snap_position ⟨0, 0, 1920, 40⟩ 160 100 10 1 = ⟨1650, 2, 100, 36⟩ := by
  constructor
  · intro tb tray_phys_w my_log_w margin_right dpr
    unfold snap_position
    have hx : ((tb.left : ℚ) + (((tb.right : ℚ)) - ((tb.left : ℚ))) - (tray_phys_w : ℚ)
        - (my_log_w : ℚ) * dpr - margin_right * dpr)
        = ((tb.right : ℚ) - tray_phys_w - my_log_w * dpr - margin_right * dpr) := by
      ring
    have hh : (((tb.bottom : ℚ)) - ((tb.top : ℚ))) = ((tb.bottom - tb.top : ℤ) : ℚ) := by
      push_cast
      ring
    dsimp only
    rw [hh, hx]
  · unfold snap_position pyInt
    norm_num

/-- C3: is_fullscreen_app_active returns true when the taskbar window is
not visible; when the taskbar is visible it returns false whenever the
foreground window's class name is one of the excluded desktop or shell
classes, even if that window's rectangle matches the primary screen size;
otherwise it returns true exactly when the foreground window's rectangle
covers at least the full primary screen resolution. -/
theorem C3_is_fullscreen (fg : Option ForegroundWindow) (scr_w scr_h : ℤ) :
    is_fullscreen_app_active false fg scr_w scr_h = true
    ∧ (∀ f, fg = some f → f.className ∈ excludedClasses →
        is_fullscreen_app_active true fg scr_w scr_h = false)
    ∧ (∀ f, fg = some f → f.className ∉ excludedClasses →
        (is_fullscreen_app_active true fg scr_w scr_h = true ↔
          scr_w ≤ f.rect.right - f.rect.left ∧ scr_h ≤ f.rect.bottom - f.rect.top)) := by
  refine ⟨rfl, ?_, ?_⟩
  · rintro f rfl hcls
    simp [is_fullscreen_app_active, List.elem_iff, hcls]
  · rintro f rfl hcls
    simp [is_fullscreen_app_active, List.elem_iff, hcls]

/-- Witness for C3_is_fullscreen: the three clauses applied to concrete
foreground windows on a 1920x1080 screen. -/
theorem C3_witness :
    is_fullscreen_app_active false (some ⟨"Progman", ⟨0, 0, 1920, 1080⟩⟩) 1920 1080 = true
    ∧ is_fullscreen_app_active true (some ⟨"Progman", ⟨0, 0, 1920, 1080⟩⟩) 1920 1080 = false
    ∧ (is_fullscreen_app_active true (some ⟨"SomeAppWindow", ⟨0, 0, 1920, 1080⟩⟩) 1920 1080 = true ↔
        (1920 : ℤ) ≤ 1920 - 0 ∧ (1080 : ℤ) ≤ 1080 - 0) :=
  ⟨(C3_is_fullscreen (some ⟨"Progman", ⟨0, 0, 1920, 1080⟩⟩) 1920 1080).1,
   (C3_is_fullscreen (some ⟨"Progman", ⟨0, 0, 1920, 1080⟩⟩) 1920 1080).2.1 _ rfl (by decide),
   (C3_is_fullscreen (some ⟨"SomeAppWindow", ⟨0, 0, 1920, 1080⟩⟩) 1920 1080).2.2 _ rfl (by decide)⟩

/-- C4 is refuted at a concrete input: a successfully probed tray rectangle
of width 5000 (which is at least 3000 and hence implausible per the claim)
is returned as is, not replaced by the 150 default. -/
theorem C4_counterexample :
    (3000 : ℤ) ≤ get_tray_notify_width_physical (some (some ⟨0, 0, 5000, 40⟩))
    ∧ get_tray_notify_width_physical (some (some ⟨0, 0, 5000, 40⟩)) ≠ 150 := by
  decide

/-- C4 (amended): get_tray_notify_width_physical returns the conservative
default of 150 pixels when the tray notification sub-window is not found or
when GetWindowRect fails on it; otherwise it returns the probed width
unconditionally - the code contains no plausibility check on the width. -/
theorem C4_amended :
    get_tray_notify_width_physical none = 150
    ∧ get_tray_notify_width_physical (some none) = 150
    ∧ ∀ r : RECT, get_tray_notify_width_physical (some (some r)) = r.right - r.left := by
  exact ⟨rfl, rfl, fun r => rfl⟩

/-- C5 is refuted at concrete inputs: the first-ever read of the disk read
rate metric when the OS reports no disk counters returns -1.0, not 0, and
records no baseline; and when the disk read rate is already cached for the
tick, a read returns the cached rate 7 instead of the formula value 100 and
leaves the stored baseline untouched. -/
theorem C5_counterexample :
    (getitem envNoDisk fetcher0 "disk_io_read_bytes_per_sec").1 = Value.rat (-1)
    ∧ Value.rat (-1) ≠ Value.rat 0
    ∧ (getitem envNoDisk fetcher0 "disk_io_read_bytes_per_sec").2.disk_io_read_bytes_last = none
    ∧ (getitem envDisk100 fetcherDiskCached "disk_io_read_bytes_per_sec").1 = Value.rat 7
    ∧ Value.rat 7 ≠ Value.rat (((100 - 0 : ℤ) : ℚ) / (1 - 0))
    ∧ (getitem envDisk100 fetcherDiskCached
        "disk_io_read_bytes_per_sec").2.disk_io_read_bytes_last = some (0, 0) := by
  refine ⟨by decide, ?_, by decide, by decide, ?_, by decide⟩
  · simp only [ne_eq, Value.rat.injEq]
    norm_num
  · simp only [ne_eq, Value.rat.injEq]
    norm_num

/-- C5 (amended): for the network rate metrics the claim holds as stated -
the first-ever read stores (now, counter) and returns exactly 0, every
subsequent read returns (current_counter - last_counter) / (now - last_time)
and then overwrites the stored baseline. The disk rate metrics follow that
discipline only on the first read of a tick with disk counters available:
a read with the rate already cached for the tick returns the cached value
and does not touch the baseline, and when the counters are unavailable the
read returns -1.0 without recording a baseline. Baselines are updated only
by reads of the corresponding rate-metric family: every non-rate key, and
every key that resolves to no attribute, leaves all four baselines
unchanged. -/
theorem C5_rate_tracker (env : Env) (s : LazySystemValueFetcher) :
    (s.network_bytes_sent_last = none →
      getitem env s "network_bytes_sent_per_sec" =
        (Value.rat 0,
         { (ensure_net_io env s).2 with
             network_bytes_sent_last := some (env.now, (ensure_net_io env s).1.1) }))
    ∧ (∀ t0 c0, s.network_bytes_sent_last = some (t0, c0) →
      getitem env s "network_bytes_sent_per_sec" =
        (Value.rat ((((ensure_net_io env s).1.1 - c0 : ℤ) : ℚ) / (env.now - t0)),
         { (ensure_net_io env s).2 with
             network_bytes_sent_last := some (env.now, (ensure_net_io env s).1.1) }))
    ∧ (s.network_bytes_recv_last = none →
      getitem env s "network_bytes_recv_per_sec" =
        (Value.rat 0,
         { (ensure_net_io env s).2 with
             network_bytes_recv_last := some (env.now, (ensure_net_io env s).1.2) }))
    ∧ (∀ t0 c0, s.network_bytes_recv_last = some (t0, c0) →
      getitem env s "network_bytes_recv_per_sec" =
        (Value.rat ((((ensure_net_io env s).1.2 - c0 : ℤ) : ℚ) / (env.now - t0)),
         { (ensure_net_io env s).2 with
             network_bytes_recv_last := some (env.now, (ensure_net_io env s).1.2) }))
    ∧ (∀ r, s.cache.disk_io_read_bytes_per_sec = some r →
        getitem env s "disk_io_read_bytes_per_sec" = (Value.rat r, s))
    ∧ (s.cache.disk_io_read_bytes_per_sec = none → (disk_io_read_bytesZ env s).1 = -1 →
        getitem env s "disk_io_read_bytes_per_sec" =
          (Value.rat (-1), (disk_io_read_bytesZ env s).2))
    ∧ (s.cache.disk_io_read_bytes_per_sec = none → (disk_io_read_bytesZ env s).1 ≠ -1 →
        ((disk_io_read_bytesZ env s).2).disk_io_read_bytes_last = none →
        getitem env s "disk_io_read_bytes_per_sec" =
          (Value.rat 0,
           { (disk_io_read_bytesZ env s).2 with
               disk_io_read_bytes_last :=
                 some (env.now, (cachedDiskCounters (disk_io_read_bytesZ env s).2).1) }))
    ∧ (∀ t0 c0, s.cache.disk_io_read_bytes_per_sec = none →
        (disk_io_read_bytesZ env s).1 ≠ -1 →
        ((disk_io_read_bytesZ env s).2).disk_io_read_bytes_last = some (t0, c0) →
        getitem env s "disk_io_read_bytes_per_sec" =
          (Value.rat ((((disk_io_read_bytesZ env s).1 - c0 : ℤ) : ℚ) / (env.now - t0)),
           { (disk_io_read_bytesZ env s).2 with
               disk_io_read_bytes_last :=
                 some (env.now, (cachedDiskCounters (disk_io_read_bytesZ env s).2).1),
               cache := { ((disk_io_read_bytesZ env s).2).cache with
                 disk_io_read_bytes_per_sec :=
                   some ((((disk_io_read_bytesZ env s).1 - c0 : ℤ) : ℚ) / (env.now - t0)) } }))
    ∧ (∀ r, s.cache.disk_io_write_bytes_per_sec = some r →
        getitem env s "disk_io_write_bytes_per_sec" = (Value.rat r, s))
    ∧ (s.cache.disk_io_write_bytes_per_sec = none → (disk_io_write_bytesZ env s).1 = -1 →
        getitem env s "disk_io_write_bytes_per_sec" =
          (Value.rat (-1), (disk_io_write_bytesZ env s).2))
    ∧ (s.cache.disk_io_write_bytes_per_sec = none → (disk_io_write_bytesZ env s).1 ≠ -1 →
        ((disk_io_write_bytesZ env s).2).disk_io_write_bytes_last = none →
        getitem env s "disk_io_write_bytes_per_sec" =
          (Value.rat 0,
           { (disk_io_write_bytesZ env s).2 with
               disk_io_write_bytes_last :=
                 some (env.now, (cachedDiskCounters (disk_io_write_bytesZ env s).2).2) }))
    ∧ (∀ t0 c0, s.cache.disk_io_write_bytes_per_sec = none →
        (disk_io_write_bytesZ env s).1 ≠ -1 →
        ((disk_io_write_bytesZ env s).2).disk_io_write_bytes_last = some (t0, c0) →
        getitem env s "disk_io_write_bytes_per_sec" =
          (Value.rat ((((disk_io_write_bytesZ env s).1 - c0 : ℤ) : ℚ) / (env.now - t0)),
           { (disk_io_write_bytesZ env s).2 with
               disk_io_write_bytes_last :=
                 some (env.now, (cachedDiskCounters (disk_io_write_bytesZ env s).2).2),
               cache := { ((disk_io_write_bytesZ env s).2).cache with
                 disk_io_write_bytes_per_sec :=
                   some ((((disk_io_write_bytesZ env s).1 - c0 : ℤ) : ℚ) / (env.now - t0)) } }))
    ∧ (∀ key, key ∈ nonRateKeys → baselinesOf (getitem env s key).2 = baselinesOf s)
    ∧ (∀ key, attrGet env s key = none → baselinesOf (getitem env s key).2 = baselinesOf s) := by
  refine ⟨?_, ?_, ?_, ?_, ?_, ?_, ?_, ?_, ?_, ?_, ?_, ?_, ?_, ?_⟩
  · intro h
    rw [getitem_eq_network_bytes_sent_per_sec]
    exact network_sent_rate_first env s h
  · intro t0 c0 h
    rw [getitem_eq_network_bytes_sent_per_sec]
    exact network_sent_rate_next env s t0 c0 h
  · intro h
    rw [getitem_eq_network_bytes_recv_per_sec]
    exact network_recv_rate_first env s h
  · intro t0 c0 h
    rw [getitem_eq_network_bytes_recv_per_sec]
    exact network_recv_rate_next env s t0 c0 h
  · intro r h
    rw [getitem_eq_disk_io_read_bytes_per_sec]
    exact disk_read_rate_cached env s r h
  · intro h1 h2
    rw [getitem_eq_disk_io_read_bytes_per_sec]
    exact disk_read_rate_unavailable env s h1 h2
  · intro h1 h2 h3
    rw [getitem_eq_disk_io_read_bytes_per_sec]
    exact disk_read_rate_first env s h1 h2 h3
  · intro t0 c0 h1 h2 h3
    rw [getitem_eq_disk_io_read_bytes_per_sec]
    exact disk_read_rate_next env s t0 c0 h1 h2 h3
  · intro r h
    rw [getitem_eq_disk_io_write_bytes_per_sec]
    exact disk_write_rate_cached env s r h
  · intro h1 h2
    rw [getitem_eq_disk_io_write_bytes_per_sec]
    exact disk_write_rate_unavailable env s h1 h2
  · intro h1 h2 h3
    rw [getitem_eq_disk_io_write_bytes_per_sec]
    exact disk_write_rate_first env s h1 h2 h3
  · intro t0 c0 h1 h2 h3
    rw [getitem_eq_disk_io_write_bytes_per_sec]
    exact disk_write_rate_next env s t0 c0 h1 h2 h3
  · intro key hk
    exact nonRate_preserves key hk env s
  · intro key hk
    exact getitem_none_baselines key env s hk

/-- Witness for C5_rate_tracker: the first clause applied to a fresh
fetcher, whose first-ever network-sent rate read returns 0 and stores the
baseline. -/
theorem C5_witness :
    getitem envT1 fetcher0 "network_bytes_sent_per_sec" =
      (Value.rat 0,
       { (ensure_net_io envT1 fetcher0).2 with
           network_bytes_sent_last := some (envT1.now, (ensure_net_io envT1 fetcher0).1.1) }) :=
  (C5_rate_tracker envT1 fetcher0).1 rfl

/-- C6 is refuted at a concrete input: the key clear_cache is neither a
built-in metric nor a configured custom key, yet indexing the fetcher with
it returns the bound method found by getattr (not the sentinel) and emits
no warning. -/
theorem C6_counterexample :
    "clear_cache" ∉ builtinMetricKeys
    ∧ List.lookup "clear_cache" fetcher0.custom_keys = none
    ∧ (getitem envT1 fetcher0 "clear_cache").1 ≠ Value.str "N/A"
    ∧ (getitem envT1 fetcher0 "clear_cache").2.warnings = fetcher0.warnings := by
  refine ⟨by decide, rfl, by decide, rfl⟩

/-- C6 (amended): for every key that resolves to no attribute of the
fetcher object (getattr returns None) and is not a configured custom key,
indexing returns the sentinel string and appends exactly one warning log
entry; no exception is raised. -/
theorem C6_amended (env : Env) (s : LazySystemValueFetcher) (key : String)
    (h1 : attrGet env s key = none) (h2 : List.lookup key s.custom_keys = none) :
    getitem env s key = (Value.str "N/A", { s with warnings := s.warnings ++ [key] }) := by
  unfold getitem
  rw [h1, h2]

/-- Witness for C6_amended at the key does_not_exist. -/
theorem C6_witness :
    getitem envT1 fetcher0 "does_not_exist" =
      (Value.str "N/A", { fetcher0 with warnings := fetcher0.warnings ++ ["does_not_exist"] }) :=
  C6_amended envT1 fetcher0 "does_not_exist" rfl rfl

set_option maxRecDepth 8192 in
/-- C7: for the auto-scaling sparkline the normalization range is monotone
across updates - an update never increases the stored minimum and never
decreases the stored maximum, because each update takes the extremum of the
current buffer together with the previous bound; concretely, after
appending 10, 90 then 5 to a fresh auto-scaling sparkline, the third frame
is normalized with min at most 5 and max at least 90. -/
theorem C7_autoscale (s : SparklineGenerator) (v : ℚ) (s' : SparklineGenerator) (m M : ℚ) :
    (s.auto_min_val = true → s.min_val = some m → s.update v = some s' →
       ∃ m', s'.min_val = some m' ∧ m' ≤ m)
    ∧ (s.auto_max_val = true → s.max_val = some M → s.update v = some s' →
       ∃ M', s'.max_val = some M' ∧ M ≤ M')
    ∧ (∃ s3, (SparklineGenerator.init 30 none none).updateAll [10, 90, 5] = some s3 ∧
         ∃ a b, s3.min_val = some a ∧ a ≤ 5 ∧ s3.max_val = some b ∧ 90 ≤ b) := by
  refine ⟨fun h1 h2 h3 => update_min_mono s v s' m h1 h2 h3,
          fun h1 h2 h3 => update_max_mono s v s' M h1 h2 h3, ?_⟩
  refine ⟨_, rfl, 0, 90, rfl, by norm_num, rfl, by norm_num⟩

/-- Witness for C7_autoscale: the minimum-monotonicity clause applied to a
concrete auto-scaling state with stored minimum 1. -/
theorem C7_witness :
    ∃ m', sparkW'.min_val = some m' ∧ m' ≤ 1 :=
  (C7_autoscale sparkW 5 sparkW' 1 9).1 rfl rfl rfl

/-- C8: the sparkline history is a ring buffer of fixed capacity N
initialized to N zeros; after any successful sequence of appends its length
is still exactly N, and after appending N+5 values it contains exactly the
most recent N values in order, the oldest having been evicted. -/
theorem C8_ring_buffer (N : ℕ) (min_val max_val : Option ℚ) (vs : List ℚ)
    (s' : SparklineGenerator)
    (h : (SparklineGenerator.init N min_val max_val).updateAll vs = some s') :
    (SparklineGenerator.init N min_val max_val).history = List.replicate N 0
    ∧ s'.history.length = N
    ∧ (vs.length = N + 5 → s'.history = vs.drop 5) := by
  obtain ⟨hm, hh⟩ := updateAll_history vs _ s' (by simp [SparklineGenerator.init]) h
  refine ⟨rfl, ?_, ?_⟩
  · rw [hh, List.length_drop]
    simp [SparklineGenerator.init]
  · intro hlen
    rw [hh, hlen]
    show ((SparklineGenerator.init N min_val max_val).history ++ vs).drop (N + 5) = vs.drop 5
    have : (SparklineGenerator.init N min_val max_val).history = List.replicate N (0 : ℚ) := rfl
    rw [this, show N + 5 = (List.replicate N (0:ℚ)).length + 5 by simp]
    exact List.drop_append 5

/-- Witness for C8_ring_buffer with capacity 3 and the eight appends 1..8,
leaving exactly [6, 7, 8]. -/
theorem C8_witness :
    (SparklineGenerator.init 3 (some 0) (some 1)).history = List.replicate 3 0
    ∧ sparkR'.history.length = 3
    ∧ ([1, 2, 3, 4, 5, 6, 7, 8] : List ℚ).length = 3 + 5
    ∧ sparkR'.history = ([1, 2, 3, 4, 5, 6, 7, 8] : List ℚ).drop 5 := by
  have h := C8_ring_buffer 3 (some 0) (some 1) [1, 2, 3, 4, 5, 6, 7, 8] sparkR' rfl
  exact ⟨h.1, h.2.1, rfl, h.2.2 rfl⟩

/-- C9 is refuted at concrete inputs: with disk counters unavailable the
base metric returns the sentinel -1 and the KB variant returns the int -1
rather than -1/1024; and reading the network sent rate (1024) followed by
its KB variant in the same tick yields 0, not 1024/1024, because the KB
property re-invokes the uncached base rate. -/
theorem C9_counterexample :
    (getitem envNoDisk fetcher0 "disk_io_read_bytes").1 = Value.int (-1)
    ∧ (getitem envNoDisk (getitem envNoDisk fetcher0 "disk_io_read_bytes").2
        "disk_io_read_kb").1 = Value.int (-1)
    ∧ Value.int (-1) ≠ Value.rat ((-1 : ℚ) / 1024)
    ∧ (getitem envT1 fetcherSent "network_bytes_sent_per_sec").1 = Value.rat 1024
    ∧ (getitem envT2 (getitem envT1 fetcherSent "network_bytes_sent_per_sec").2
        "network_kb_sent_per_sec").1 = Value.rat 0
    ∧ Value.rat 0 ≠ Value.rat ((1024 : ℚ) / 1024) := by
  refine ⟨by decide, by decide, by decide, ?_, ?_, ?_⟩
  · rw [getitem_eq_network_bytes_sent_per_sec,
        network_sent_rate_next envT1 fetcherSent 0 0 rfl]
    simp only [Value.rat.injEq]
    norm_num [ensure_net_io, fetcherSent, fetcher0, envT1]
  · rw [getitem_eq_network_bytes_sent_per_sec,
        network_sent_rate_next envT1 fetcherSent 0 0 rfl]
    simp only
    rw [getitem_eq_network_kb_sent_per_sec]
    unfold network_kb_sent_per_sec network_bytes_sent_per_secQ
    norm_num [ensure_net_io, fetcherSent, fetcher0, envT1, envT2]
  · simp only [ne_eq, Value.rat.injEq]
    norm_num

/-- C9 (amended): every derived unit-conversion metric of a byte-count
total is a pure function of its base metric with no caching of its own:
within one tick, after the base metric returned the int n, the derived
metric returns exactly the value listed in unitConversionPairs - n/1024,
n/1024^2 or n/1024^3 - except that the disk variants pass the -1 sentinel
through unchanged; the derived read leaves the state untouched. The
unit variants of the per-second rates are excluded: they re-invoke the
rate property, which for network rates recomputes a fresh value. -/
theorem C9_amended (p : String × String × (ℤ → Value)) (hp : p ∈ unitConversionPairs)
    (env1 env2 : Env) (s s1 : LazySystemValueFetcher) (n : ℤ)
    (h : getitem env1 s p.1 = (Value.int n, s1)) :
    getitem env2 s1 p.2.1 = (p.2.2 n, s1) := by
  fin_cases hp
  · rw [getitem_eq_ram_total] at h
    unfold ram_total ram_totalZ at h
    rcases he : ensure_virtual_memory env1 s with ⟨vm, t⟩
    rw [he] at h
    simp only [Value.int.injEq, Prod.mk.injEq] at h
    obtain ⟨hn, hs⟩ := h
    subst hs
    have hc := ensure_virtual_memory_cache env1 s
    rw [he] at hc
    simp only at hc
    rw [getitem_eq_ram_total_mb]
    unfold ram_total_mb ram_totalZ
    simp [hn, ensure_virtual_memory_of_cached env2 t vm hc]
  · rw [getitem_eq_ram_total] at h
    unfold ram_total ram_totalZ at h
    rcases he : ensure_virtual_memory env1 s with ⟨vm, t⟩
    rw [he] at h
    simp only [Value.int.injEq, Prod.mk.injEq] at h
    obtain ⟨hn, hs⟩ := h
    subst hs
    have hc := ensure_virtual_memory_cache env1 s
    rw [he] at hc
    simp only at hc
    rw [getitem_eq_ram_total_gb]
    unfold ram_total_gb ram_totalZ
    simp [hn, ensure_virtual_memory_of_cached env2 t vm hc]
  · rw [getitem_eq_ram_used] at h
    unfold ram_used ram_usedZ at h
    rcases he : ensure_virtual_memory env1 s with ⟨vm, t⟩
    rw [he] at h
    simp only [Value.int.injEq, Prod.mk.injEq] at h
    obtain ⟨hn, hs⟩ := h
    subst hs
    have hc := ensure_virtual_memory_cache env1 s
    rw [he] at hc
    simp only at hc
    rw [getitem_eq_ram_used_mb]
    unfold ram_used_mb ram_usedZ
    simp [hn, ensure_virtual_memory_of_cached env2 t vm hc]
  · rw [getitem_eq_ram_used] at h
    unfold ram_used ram_usedZ at h
    rcases he : ensure_virtual_memory env1 s with ⟨vm, t⟩
    rw [he] at h
    simp only [Value.int.injEq, Prod.mk.injEq] at h
    obtain ⟨hn, hs⟩ := h
    subst hs
    have hc := ensure_virtual_memory_cache env1 s
    rw [he] at hc
    simp only at hc
    rw [getitem_eq_ram_used_gb]
    unfold ram_used_gb ram_usedZ
    simp [hn, ensure_virtual_memory_of_cached env2 t vm hc]
  · rw [getitem_eq_network_bytes_sent] at h
    unfold network_bytes_sent network_bytes_sentZ at h
    rcases he : ensure_net_io env1 s with ⟨vm, t⟩
    rw [he] at h
    simp only [Value.int.injEq, Prod.mk.injEq] at h
    obtain ⟨hn, hs⟩ := h
    subst hs
    have hc := ensure_net_io_cache env1 s
    rw [he] at hc
    simp only at hc
    rw [getitem_eq_network_kb_sent]
    unfold network_kb_sent network_bytes_sentZ
    simp [hn, ensure_net_io_of_cached env2 t vm hc]
  · rw [getitem_eq_network_bytes_sent] at h
    unfold network_bytes_sent network_bytes_sentZ at h
    rcases he : ensure_net_io env1 s with ⟨vm, t⟩
    rw [he] at h
    simp only [Value.int.injEq, Prod.mk.injEq] at h
    obtain ⟨hn, hs⟩ := h
    subst hs
    have hc := ensure_net_io_cache env1 s
    rw [he] at hc
    simp only at hc
    rw [getitem_eq_network_mb_sent]
    unfold network_mb_sent network_bytes_sentZ
    simp [hn, ensure_net_io_of_cached env2 t vm hc]
  · rw [getitem_eq_network_bytes_recv] at h
    unfold network_bytes_recv network_bytes_recvZ at h
    rcases he : ensure_net_io env1 s with ⟨vm, t⟩
    rw [he] at h
    simp only [Value.int.injEq, Prod.mk.injEq] at h
    obtain ⟨hn, hs⟩ := h
    subst hs
    have hc := ensure_net_io_cache env1 s
    rw [he] at hc
    simp only at hc
    rw [getitem_eq_network_kb_recv]
    unfold network_kb_recv network_bytes_recvZ
    simp [hn, ensure_net_io_of_cached env2 t vm hc]
  · rw [getitem_eq_network_bytes_recv] at h
    unfold network_bytes_recv network_bytes_recvZ at h
    rcases he : ensure_net_io env1 s with ⟨vm, t⟩
    rw [he] at h
    simp only [Value.int.injEq, Prod.mk.injEq] at h
    obtain ⟨hn, hs⟩ := h
    subst hs
    have hc := ensure_net_io_cache env1 s
    rw [he] at hc
    simp only at hc
    rw [getitem_eq_network_mb_recv]
    unfold network_mb_recv network_bytes_recvZ
    simp [hn, ensure_net_io_of_cached env2 t vm hc]
  · rw [getitem_eq_network_bytes_recv] at h
    unfold network_bytes_recv network_bytes_recvZ at h
    rcases he : ensure_net_io env1 s with ⟨vm, t⟩
    rw [he] at h
    simp only [Value.int.injEq, Prod.mk.injEq] at h
    obtain ⟨hn, hs⟩ := h
    subst hs
    have hc := ensure_net_io_cache env1 s
    rw [he] at hc
    simp only at hc
    rw [getitem_eq_network_gb_recv]
    unfold network_gb_recv network_bytes_recvZ
    simp [hn, ensure_net_io_of_cached env2 t vm hc]
  · rw [getitem_eq_disk_io_read_bytes] at h
    unfold disk_io_read_bytes at h
    obtain ⟨d, hv, hst⟩ := disk_io_read_bytesZ_spec env1 s
    rcases hb : disk_io_read_bytesZ env1 s with ⟨b, t⟩
    rw [hb] at h hv hst
    simp only [Value.int.injEq, Prod.mk.injEq] at h hv hst
    obtain ⟨hn, hs⟩ := h
    subst hs
    subst hn
    have hcd : t.cache.disk_io_counters = some d := by rw [hst]
    rw [getitem_eq_disk_io_read_kb]
    unfold disk_io_read_kb
    rw [disk_io_read_bytesZ_of_cached env2 t d hcd]
    by_cases hm : diskReadVal d = -1
    · simp [hm, hv]
    · simp [hm, hv, disk_io_read_bytesZ_of_cached env2 t d hcd]
  · rw [getitem_eq_disk_io_read_bytes] at h
    unfold disk_io_read_bytes at h
    obtain ⟨d, hv, hst⟩ := disk_io_read_bytesZ_spec env1 s
    rcases hb : disk_io_read_bytesZ env1 s with ⟨b, t⟩
    rw [hb] at h hv hst
    simp only [Value.int.injEq, Prod.mk.injEq] at h hv hst
    obtain ⟨hn, hs⟩ := h
    subst hs
    subst hn
    have hcd : t.cache.disk_io_counters = some d := by rw [hst]
    rw [getitem_eq_disk_io_read_mb]
    unfold disk_io_read_mb
    rw [disk_io_read_bytesZ_of_cached env2 t d hcd]
    by_cases hm : diskReadVal d = -1
    · simp [hm, hv]
    · simp [hm, hv, disk_io_read_bytesZ_of_cached env2 t d hcd]
  · rw [getitem_eq_disk_io_read_bytes] at h
    unfold disk_io_read_bytes at h
    obtain ⟨d, hv, hst⟩ := disk_io_read_bytesZ_spec env1 s
    rcases hb : disk_io_read_bytesZ env1 s with ⟨b, t⟩
    rw [hb] at h hv hst
    simp only [Value.int.injEq, Prod.mk.injEq] at h hv hst
    obtain ⟨hn, hs⟩ := h
    subst hs
    subst hn
    have hcd : t.cache.disk_io_counters = some d := by rw [hst]
    rw [getitem_eq_disk_io_read_gb]
    unfold disk_io_read_gb
    rw [disk_io_read_bytesZ_of_cached env2 t d hcd]
    by_cases hm : diskReadVal d = -1
    · simp [hm, hv]
    · simp [hm, hv, disk_io_read_bytesZ_of_cached env2 t d hcd]
  · rw [getitem_eq_disk_io_write_bytes] at h
    unfold disk_io_write_bytes at h
    obtain ⟨d, hv, hst⟩ := disk_io_write_bytesZ_spec env1 s
    rcases hb : disk_io_write_bytesZ env1 s with ⟨b, t⟩
    rw [hb] at h hv hst
    simp only [Value.int.injEq, Prod.mk.injEq] at h hv hst
    obtain ⟨hn, hs⟩ := h
    subst hs
    subst hn
    have hcd : t.cache.disk_io_counters = some d := by rw [hst]
    rw [getitem_eq_disk_io_write_kb]
    unfold disk_io_write_kb
    rw [disk_io_write_bytesZ_of_cached env2 t d hcd]
    by_cases hm : diskWriteVal d = -1
    · simp [hm, hv]
    · simp [hm, hv, disk_io_write_bytesZ_of_cached env2 t d hcd]
  · rw [getitem_eq_disk_io_write_bytes] at h
    unfold disk_io_write_bytes at h
    obtain ⟨d, hv, hst⟩ := disk_io_write_bytesZ_spec env1 s
    rcases hb : disk_io_write_bytesZ env1 s with ⟨b, t⟩
    rw [hb] at h hv hst
    simp only [Value.int.injEq, Prod.mk.injEq] at h hv hst
    obtain ⟨hn, hs⟩ := h
    subst hs
    subst hn
    have hcd : t.cache.disk_io_counters = some d := by rw [hst]
    rw [getitem_eq_disk_io_write_mb]
    unfold disk_io_write_mb
    rw [disk_io_write_bytesZ_of_cached env2 t d hcd]
    by_cases hm : diskWriteVal d = -1
    · simp [hm, hv]
    · simp [hm, hv, disk_io_write_bytesZ_of_cached env2 t d hcd]
  · rw [getitem_eq_disk_io_write_bytes] at h
    unfold disk_io_write_bytes at h
    obtain ⟨d, hv, hst⟩ := disk_io_write_bytesZ_spec env1 s
    rcases hb : disk_io_write_bytesZ env1 s with ⟨b, t⟩
    rw [hb] at h hv hst
    simp only [Value.int.injEq, Prod.mk.injEq] at h hv hst
    obtain ⟨hn, hs⟩ := h
    subst hs
    subst hn
    have hcd : t.cache.disk_io_counters = some d := by rw [hst]
    rw [getitem_eq_disk_io_write_gb]
    unfold disk_io_write_gb
    rw [disk_io_write_bytesZ_of_cached env2 t d hcd]
    by_cases hm : diskWriteVal d = -1
    · simp [hm, hv]
    · simp [hm, hv, disk_io_write_bytesZ_of_cached env2 t d hcd]

/-- Witness for C9_amended at the pair (ram_total, ram_total_mb) with total
1000 bytes. -/
theorem C9_witness :
    getitem envT2 (getitem envT1 fetcher0 "ram_total").2 "ram_total_mb" =
      (Value.rat ((1000 : ℚ) / (1024 * 1024)), (getitem envT1 fetcher0 "ram_total").2) := by
  have h := C9_amended ("ram_total", "ram_total_mb", fun n => Value.rat ((n : ℚ) / (1024 * 1024)))
    (List.Mem.head _) envT1 envT2 fetcher0 (getitem envT1 fetcher0 "ram_total").2 1000 rfl
  simpa using h

/-- C10: when psutil.disk_io_counters() returns None, disk_io_read_bytes
and disk_io_write_bytes return the int sentinel -1, every derived KB/MB/GB
variant also returns the int -1 rather than dividing the sentinel, and
every per-second disk rate variant returns the float -1.0; no exception is
raised (each read returns the listed plain value). -/
theorem C10_disk_sentinel (p : String × Value) (hp : p ∈ diskSentinelValues)
    (env : Env) (s : LazySystemValueFetcher)
    (henv : env.disk_io = none)
    (hc : s.cache.disk_io_counters = none ∨ s.cache.disk_io_counters = some none)
    (hr : s.cache.disk_io_read_bytes_per_sec = none)
    (hw : s.cache.disk_io_write_bytes_per_sec = none) :
    (getitem env s p.1).1 = p.2 := by
  have hz := disk_io_read_bytesZ_none env s henv hc
  have hzw := disk_io_write_bytesZ_none env s henv hc
  have hqr := disk_read_rateQ_none env s henv hc hr
  have hqw := disk_write_rateQ_none env s henv hc hw
  fin_cases hp
  · rw [getitem_eq_disk_io_read_bytes]
    unfold disk_io_read_bytes
    rw [hz]
  · rw [getitem_eq_disk_io_read_kb]
    unfold disk_io_read_kb
    rw [hz]
    simp
  · rw [getitem_eq_disk_io_read_mb]
    unfold disk_io_read_mb
    rw [hz]
    simp
  · rw [getitem_eq_disk_io_read_gb]
    unfold disk_io_read_gb
    rw [hz]
    simp
  · rw [getitem_eq_disk_io_read_bytes_per_sec]
    unfold disk_io_read_bytes_per_sec
    rw [hqr]
  · rw [getitem_eq_disk_io_read_kb_per_sec]
    unfold disk_io_read_kb_per_sec
    rw [hqr]
    simp
  · rw [getitem_eq_disk_io_read_mb_per_sec]
    unfold disk_io_read_mb_per_sec
    rw [hqr]
    simp
  · rw [getitem_eq_disk_io_read_gb_per_sec]
    unfold disk_io_read_gb_per_sec
    rw [hqr]
    simp
  · rw [getitem_eq_disk_io_write_bytes]
    unfold disk_io_write_bytes
    rw [hzw]
  · rw [getitem_eq_disk_io_write_kb]
    unfold disk_io_write_kb
    rw [hzw]
    simp
  · rw [getitem_eq_disk_io_write_mb]
    unfold disk_io_write_mb
    rw [hzw]
    simp
  · rw [getitem_eq_disk_io_write_gb]
    unfold disk_io_write_gb
    rw [hzw]
    simp
  · rw [getitem_eq_disk_io_write_bytes_per_sec]
    unfold disk_io_write_bytes_per_sec
    rw [hqw]
  · rw [getitem_eq_disk_io_write_kb_per_sec]
    unfold disk_io_write_kb_per_sec
    rw [hqw]
    simp
  · rw [getitem_eq_disk_io_write_mb_per_sec]
    unfold disk_io_write_mb_per_sec
    rw [hqw]
    simp
  · rw [getitem_eq_disk_io_write_gb_per_sec]
    unfold disk_io_write_gb_per_sec
    rw [hqw]
    simp

/-- Witness for C10_disk_sentinel at the key disk_io_read_bytes under an
environment with no disk counters. -/
theorem C10_witness :
    ("disk_io_read_bytes", Value.int (-1)) ∈ diskSentinelValues
    ∧ (getitem envNoDisk fetcher0 "disk_io_read_bytes").1 = Value.int (-1) :=
  ⟨by decide, C10_disk_sentinel ("disk_io_read_bytes", Value.int (-1)) (by decide)
     envNoDisk fetcher0 rfl (Or.inl rfl) rfl rfl⟩

end Obidome
